import Mathlib

/-!
# Verification of the confidence-coaching chat backend

A shallow embedding of `backend/routers/chat.py` and `backend/notify.py`
(the mode/step router, plan lifecycle, confidence capture, follow-up
scheduler and the check-in batch job), with theorems checking the
natural-language specification against the code.

Modelling conventions:
* Python strings are Lean `String`s; the fixed-phrase regexes
  (`\bphrase\b` alternations) are embedded as word-boundary phrase
  search over the lowered text, with `(a|b)` alternations expanded into
  separate literal phrases.
* Timestamps (ISO strings in the code) are modelled as `Int` instants;
  `_now_iso()` within one request is a single `now` parameter.
* Python dicts keyed by strings are association lists.
* The external LLM (`gemini_text`) is an oracle parameter: each handler
  receives the raw text the model would have returned, plus the
  freshly drawn uuid-based plan id where the code calls `uuid4()`.
-/

namespace BuildConfidence

/-- Python regex `\w` word character: `[a-zA-Z0-9_]`. -/
def wordChar (c : Char) : Bool := c.isAlpha || c.isDigit || c == '_'

/-- Python `\s` whitespace (the ASCII part, which is what `.strip()` and
the `\s` uses in this code ever see). -/
def isWs (c : Char) : Bool :=
  c == ' ' || c == '\t' || c == '\n' || c == '\r' || c == '\x0b' || c == '\x0c'

def dropWs : List Char → List Char
  | [] => []
  | c :: ts => if isWs c then dropWs ts else c :: ts

/-- `leadsWith p t` holds when `p` is an initial segment of `t`. -/
def leadsWith : List Char → List Char → Bool
  | [], _ => true
  | _ :: _, [] => false
  | p :: ps, c :: ts => p == c && leadsWith ps ts

/-- Python `.strip()` on a char list. -/
def trimL (l : List Char) : List Char := ((dropWs ((dropWs l).reverse)).reverse)

/-- Python `.strip()`. -/
def pyStrip (s : String) : String := ⟨trimL s.data⟩

/-- Python `.lower()` (ASCII, which covers all the fixed phrases). -/
def pyLower (s : String) : String := ⟨s.data.map Char.toLower⟩

/-- Python `.upper()`. -/
def pyUpper (s : String) : String := ⟨s.data.map Char.toUpper⟩

/-- Python `needle in hay` substring test. -/
def containsSub (nd : List Char) : List Char → Bool
  | [] => nd.isEmpty
  | hay@(_ :: t) => leadsWith nd hay || containsSub nd t

/-- Python `hay.find(needle)`-style: index of the first occurrence. -/
def findSub (nd : List Char) : List Char → Option Nat
  | [] => if nd.isEmpty then some 0 else none
  | hay@(_ :: t) =>
    if leadsWith nd hay then some 0
    else (findSub nd t).map (· + 1)

/-- Python `s.startswith(p)`. -/
def startsWithS (s p : String) : Bool := leadsWith p.data s.data

/-- A `\b` boundary holds before the (word-char-initial) phrase when the
preceding character is absent or a non-word character. -/
def boundaryOK : Option Char → Bool
  | none => true
  | some c => !wordChar c

/-- The phrase `p` matches at the head of `t`, with a trailing `\b`
boundary (all embedded phrases end in a word character, so the boundary
holds iff the next character is absent or non-word). -/
def phraseAt (p t : List Char) : Bool :=
  leadsWith p t &&
    (match t.drop p.length with
     | [] => true
     | c :: _ => !wordChar c)

/-- `re.search(r"\b<p>\b", t)` for a literal phrase `p` that starts and
ends with word characters: some position of `t` matches `p` with word
boundaries on both sides.  `prev` is the character just before the
current position. -/
def phraseSearch (p : List Char) (prev : Option Char) : List Char → Bool
  | [] => boundaryOK prev && phraseAt p []
  | t@(c :: ts) => (boundaryOK prev && phraseAt p t) || phraseSearch p (some c) ts

/-- `_matches_any` for one pattern: search the lowered text. -/
def phraseIn (text p : String) : Bool := phraseSearch p.data none (pyLower text).data

/-- `_matches_any(text, patterns)`. -/
def matchesAny (text : String) (patterns : List String) : Bool :=
  patterns.any (fun p => phraseIn text p)

/-- ASCII apostrophe, kept out of string literals. -/
def apos : Char := Char.ofNat 39

/-- `_NEW_PLAN_PATTERNS`, with the `(doesn'?t|does not)` alternation
expanded into three literal phrases. -/
def NEW_PLAN_PHRASES : List String :=
  ["new plan", "create a new plan", "make a new plan", "start over",
   "restart", "redo", "re-do", "replace the plan",
   "this plan doesnt work",
   ⟨('t' :: 'h' :: 'i' :: 's' :: ' ' :: 'p' :: 'l' :: 'a' :: 'n' :: ' ' ::
     'd' :: 'o' :: 'e' :: 's' :: 'n' :: apos :: 't' :: ' ' ::
     'w' :: 'o' :: 'r' :: 'k' :: [])⟩,
   "this plan does not work"]

/-- `_PLAN_REQUEST_PATTERNS`. -/
def PLAN_REQUEST_PHRASES : List String :=
  ["plan", "roadmap", "schedule", "prep", "prepare", "help me",
   "organize", "game plan"]

/-- `_REFINE_PATTERNS`. -/
def REFINE_PHRASES : List String :=
  ["adjust", "refine", "edit", "update", "shorter", "longer", "focus on",
   "add", "remove", "change", "revise"]

/-- `_SKIP_PATTERNS`. -/
def SKIP_PHRASES : List String :=
  ["skip", "just chat", "no plan", "stop", "not now"]

/-- `_SHOW_PLAN_PATTERNS`, with `(me )?` expanded. -/
def SHOW_PLAN_PHRASES : List String :=
  ["show me the plan", "show the plan", "see the plan", "view the plan",
   "open the plan"]

def explicit_new_plan_request (user_text : String) : Bool :=
  matchesAny user_text NEW_PLAN_PHRASES

def plan_requested (user_text : String) : Bool :=
  matchesAny user_text PLAN_REQUEST_PHRASES

def refine_requested (user_text : String) : Bool :=
  matchesAny user_text REFINE_PHRASES

def skip_requested (user_text : String) : Bool :=
  matchesAny user_text SKIP_PHRASES

def show_plan_requested (user_text : String) : Bool :=
  matchesAny user_text SHOW_PLAN_PHRASES

/-- `normalize_topic_key`: lower, map every `[^a-z0-9_]` character to `_`
(a run of them collapses to one `_` — mapping each then collapsing runs
is equivalent to the code's two `re.sub`s), strip `_` from both ends;
`None`/empty in gives `None` out. -/
def topicChar (c : Char) : Bool :=
  (c.isLower && c.isAlpha) || c.isDigit || c == '_'

def collapseUnderscores : List Char → List Char
  | [] => []
  | '_' :: ts =>
    match collapseUnderscores ts with
    | '_' :: r => '_' :: r
    | r => '_' :: r
  | c :: ts => c :: collapseUnderscores ts

def dropUnderscores : List Char → List Char
  | [] => []
  | '_' :: ts => dropUnderscores ts
  | c :: ts => c :: ts

def normalize_topic_key (topic : Option String) : Option String :=
  match topic with
  | none => none
  | some s =>
    if (pyStrip s) = "" then none
    else
      let t := (pyLower (pyStrip s)).data.map
        (fun c => if topicChar c then c else '_')
      let t := dropUnderscores ((dropUnderscores (collapseUnderscores t).reverse).reverse)
      if t.isEmpty then none else some ⟨t⟩

-- ===========================
-- Confidence capture (`maybe_capture_confidence`)
-- ===========================

/-- The tail regex `\s*/\s*10` matched against the full remainder. -/
def slashTenTail (l : List Char) : Bool :=
  match dropWs l with
  | '/' :: r =>
    (match dropWs r with
     | '1' :: '0' :: [] => true
     | _ => false)
  | _ => false

def digitVal (c : Char) : Nat := c.toNat - 48

/-- `re.fullmatch(r"(\d{1,2})(?:\s*/\s*10)?", t)`: one or two leading
digits, then either the end of the string or the `/10` tail.  The
two-digit (greedy) parse is tried first; the regex backtracks to one
digit only when the leftover after two digits fails, which is mirrored
by the nested conditions. -/
def confValue (t : String) : Option Nat :=
  match t.data with
  | [] => none
  | d1 :: r1 =>
    if !d1.isDigit then none
    else
      match r1 with
      | [] => some (digitVal d1)
      | d2 :: r2 =>
        if d2.isDigit && (r2.isEmpty || slashTenTail r2) then
          some (10 * digitVal d1 + digitVal d2)
        else if slashTenTail r1 then some (digitVal d1)
        else none

/-- Per-topic confidence record `{baseline, last, updated_at}`. -/
structure ConfRec where
  baseline : Option Nat := none
  last : Option Nat := none
  updated_at : Option Int := none
deriving Repr, DecidableEq

/-- Association-list read (python dict lookup). -/
def aget {α : Type} (m : List (String × α)) (k : String) : Option α :=
  (m.find? (fun p => p.1 == k)).map Prod.snd

/-- Association-list write (python dict assignment: replace or append). -/
def aset {α : Type} : List (String × α) → String → α → List (String × α)
  | [], k, v => [(k, v)]
  | p :: ps, k, v => if p.1 == k then (k, v) :: ps else p :: aset ps k v

/-- `maybe_capture_confidence(state, user_text, topic_key)` acting on
`state["metrics"]["confidence"]`.  Returns the flag and the updated map.
The code strips + lowers the text, full-matches the number pattern,
rejects values above 10, then writes `baseline` only when absent and
always overwrites `last` and `updated_at`. -/
def maybe_capture_confidence (conf : List (String × ConfRec))
    (user_text topic_key : String) (now : Int) :
    Bool × List (String × ConfRec) :=
  match confValue (pyLower (pyStrip user_text)) with
  | none => (false, conf)
  | some v =>
    if v > 10 then (false, conf)
    else
      let c := (aget conf topic_key).getD {}
      let c := { c with baseline := some (c.baseline.getD v),
                        last := some v, updated_at := some now }
      (true, aset conf topic_key c)

-- ===========================
-- `extract_bullets`
-- ===========================

/-- `re.sub(r"^\s*[-*•]\s+", "", ln)` on an already-stripped line. -/
def stripBulletMarker (l : List Char) : List Char :=
  match l with
  | c :: c2 :: r =>
    if (c == '-' || c == '*' || c == '•') && isWs c2 then dropWs r else l
  | _ => l

/-- `re.sub(r"^\s*\d+\.\s+", "", ln)` on an already-stripped line. -/
def stripNumMarker (l : List Char) : List Char :=
  let ds := l.takeWhile Char.isDigit
  if ds.isEmpty then l
  else
    match l.dropWhile Char.isDigit with
    | '.' :: c :: r => if isWs c then dropWs r else l
    | _ => l

/-- Python `ln[:157].rstrip()`. -/
def pyRStrip (l : List Char) : List Char := (dropWs l.reverse).reverse

/-- The per-line cleanup of `extract_bullets`. -/
def cleanLine (ln : String) : String :=
  ⟨trimL (stripNumMarker (trimL (stripBulletMarker ln.data)))⟩

/-- Truncation: lines longer than 160 chars become the first 157 chars,
right-stripped, plus an ellipsis. -/
def truncLine (s : String) : String :=
  if s.data.length > 160 then ⟨pyRStrip (s.data.take 157) ++ ['…']⟩ else s

/-- The accumulation loop of `extract_bullets`: blank (post-cleanup)
lines are skipped; the loop breaks once the count reaches `maxI`
(checked after appending, as in the code). -/
def extractGo (maxI : Nat) (count : Nat) : List String → List String
  | [] => []
  | ln :: rest =>
    let x := cleanLine ln
    if x = "" then extractGo maxI count rest
    else
      let x := truncLine x
      if count + 1 ≥ maxI then [x] else x :: extractGo maxI (count + 1) rest

/-- Python `splitlines()` modelled as splitting on `\n` (the code feeds
it LLM output; `\r` remnants are removed by the per-line strip). -/
def splitOnNl : List Char → List (List Char)
  | [] => [[]]
  | '\n' :: ts => [] :: splitOnNl ts
  | c :: ts =>
    match splitOnNl ts with
    | [] => [[c]]
    | h :: r => (c :: h) :: r

/-- `extract_bullets(text, max_items)`. -/
def extract_bullets (text : String) (max_items : Nat) : List String :=
  extractGo max_items 0 ((splitOnNl text.data).map (fun l => pyStrip ⟨l⟩))

-- ===========================
-- Learning resources (`RESOURCE_CATALOG`, `pick_resources`)
-- ===========================

structure Resource where
  title : String
  url : String
  rtype : String
deriving Repr, DecidableEq

def CATALOG_MLOPS : List Resource :=
  [⟨"Google Cloud: MLOps (CD/CT pipelines) overview",
    "https://cloud.google.com/architecture/mlops-continuous-delivery-and-automation-pipelines-in-machine-learning",
    "doc"⟩,
   ⟨"Vertex AI: MLOps & pipelines (overview)",
    "https://cloud.google.com/vertex-ai/docs/pipelines/introduction", "doc"⟩,
   ⟨"MLflow Tracking (official docs)",
    "https://mlflow.org/docs/latest/tracking.html", "doc"⟩,
   ⟨"Model monitoring concepts (Vertex AI)",
    "https://cloud.google.com/vertex-ai/docs/model-monitoring/overview", "doc"⟩]

def CATALOG_SYSTEM_DESIGN : List Resource :=
  [⟨"Google Cloud Architecture Center", "https://cloud.google.com/architecture", "doc"⟩,
   ⟨"Google SRE Workbook (reliability patterns)",
    "https://sre.google/workbook/table-of-contents/", "book"⟩]

def CATALOG_DATA_ENGINEERING : List Resource :=
  [⟨"BigQuery documentation", "https://cloud.google.com/bigquery/docs", "doc"⟩,
   ⟨"BigQuery best practices",
    "https://cloud.google.com/bigquery/docs/best-practices-performance-overview", "doc"⟩,
   ⟨"Cloud Storage documentation", "https://cloud.google.com/storage/docs", "doc"⟩]

def CATALOG_KUBERNETES : List Resource :=
  [⟨"Kubernetes Basics", "https://kubernetes.io/docs/tutorials/kubernetes-basics/", "doc"⟩,
   ⟨"Kubernetes Deployments",
    "https://kubernetes.io/docs/concepts/workloads/controllers/deployment/", "doc"⟩]

def CATALOG_INTERVIEW : List Resource :=
  [⟨"STAR interview method (overview)",
    "https://en.wikipedia.org/wiki/Situation,_task,_action,_result", "article"⟩,
   ⟨"System design primer (GitHub)",
    "https://github.com/donnemartin/system-design-primer", "repo"⟩]

/-- Plain (not word-bounded) case-sensitive substring test used by the
keyword lookups (`k in t` on the already-lowered text). -/
def kwIn (t : List Char) (k : String) : Bool := containsSub k.data t

/-- Deduplicate by url and cap at `maxItems` (the final loop of
`pick_resources`; like the code, the break is checked after
appending). -/
def dedupByUrl (maxItems : Nat) (seen : List String) (count : Nat) :
    List Resource → List Resource
  | [] => []
  | r :: rest =>
    if r.url = "" || seen.contains r.url then dedupByUrl maxItems seen count rest
    else if count + 1 ≥ maxItems then [r]
    else r :: dedupByUrl maxItems (r.url :: seen) (count + 1) rest

/-- `pick_resources(topic_key, task_text, max_items)`. -/
def pick_resources (topic_key task_text : String) (max_items : Nat := 3) :
    List Resource :=
  let t := (pyLower task_text).data
  let picks :=
    (if ["mlops", "pipeline", "deployment", "serving", "monitor", "drift",
         "registry", "version"].any (kwIn t) then CATALOG_MLOPS else []) ++
    (if ["bigquery", "sql", "etl", "elt", "warehouse", "dataflow", "spark",
         "composer", "airflow", "gcs", "storage"].any (kwIn t) then
       CATALOG_DATA_ENGINEERING else []) ++
    (if ["system design", "architecture", "trade-off", "latency", "throughput",
         "reliability", "scalability"].any (kwIn t) then
       CATALOG_SYSTEM_DESIGN else []) ++
    (if ["k8s", "kubernetes", "helm", "pod", "service mesh"].any (kwIn t) then
       CATALOG_KUBERNETES else []) ++
    (if ["behavioral", "star", "mock interview", "interview",
         "tell me about yourself"].any (kwIn t) then CATALOG_INTERVIEW else [])
  let picks :=
    if picks.isEmpty && topic_key = "interview_confidence" then
      CATALOG_INTERVIEW ++ CATALOG_SYSTEM_DESIGN ++ CATALOG_MLOPS
    else picks
  dedupByUrl max_items [] 0 picks

-- ===========================
-- Plan objects and `build_plan_object`
-- ===========================

structure Task where
  text : String
  status : String
  /-- `resources` key; plans created by `handle_chat` omit the key in the
  dict, which is observationally `[]` (the key is never read on them). -/
  resources : List Resource
deriving Repr, DecidableEq

structure Milestone where
  name : String
  status : String
deriving Repr, DecidableEq

structure Plan where
  id : String
  topic : String
  title : String
  goal : String
  milestones : List Milestone
  tasks : List Task
  created_at : Int
  updated_at : Int
deriving Repr, DecidableEq

/-- `discovery_answers` dict: only the keys `deadline` and `target` are
ever written or read. -/
structure DiscoveryAnswers where
  deadline : Option String := none
  target : Option String := none
deriving Repr, DecidableEq

/-- Python `x or default` for an optional string (both `None` and `""`
fall through to the default). -/
def pyOrStr (x : Option String) (d : String) : String :=
  match x with
  | none => d
  | some s => if s = "" then d else s

/-- The hardcoded fallback task list of `build_plan_object`. -/
def FALLBACK_TASKS : List String :=
  ["Write a 6–8 line story: your background + what role you want + why.",
   "Review core concepts and make a 1-page cheat sheet.",
   "Do one mock interview question and write a better second answer.",
   "Pick 2 projects and practice explaining them in 2 minutes each.",
   "Practice 5 common behavioral questions with STAR format.",
   "Review one system design pattern relevant to the role.",
   "Do 30 minutes of coding practice (easy/medium).",
   "Create a checklist for interview day and logistics."]

def titleFor (topic_key : String) : String :=
  if topic_key = "interview_confidence" then "Interview Confidence Plan"
  else if topic_key = "work_focus" then "Work Focus Plan"
  else if topic_key = "relationship_communication" then "Relationship Communication Plan"
  else if topic_key = "appearance_confidence" then "Appearance Confidence Plan"
  else if topic_key = "general" then "Personal Improvement Plan"
  else "Personal Plan"

/-- `build_plan_object(topic_key, discovery_answers, user_text)`.
`ideas` is the oracle text returned by `gemini_text` and `plan_id` the
fresh `plan_{uuid4().hex[:8]}` identifier.  The discovery answers and
the raw user text only feed the prompt sent to the model (they are
folded into the `ideas` oracle), so only `ideas` determines the tasks. -/
def build_plan_object (topic_key : String) (_discovery_answers : DiscoveryAnswers)
    (_user_text : String) (ideas : String) (plan_id : String) (now : Int) : Plan :=
  let task_texts := extract_bullets ideas 10
  let task_texts := if task_texts.isEmpty then FALLBACK_TASKS else task_texts
  let title := titleFor topic_key
  { id := plan_id
    topic := topic_key
    title := title
    goal := "Make steady progress on " ++ pyLower title
    milestones := [⟨"Get clarity", "todo"⟩, ⟨"Build reps", "todo"⟩,
                   ⟨"Polish & confidence", "todo"⟩]
    tasks := task_texts.map (fun t => ⟨t, "todo", pick_resources topic_key t 3⟩)
    created_at := now
    updated_at := now }

-- ===========================
-- Refine edits (`handle_plan_refine` inner helpers)
-- ===========================

/-- `re.split(r"\s*->\s*", old_new, maxsplit=1)`: split at the first
`->`; the `\s*` on both sides is subsumed by the `.strip()` the caller
applies to both halves, so the split returns the raw halves around the
first `->` occurrence. -/
def splitArrow (s : String) : Option (String × String) :=
  match findSub ['-', '>'] s.data with
  | none => none
  | some i => some (⟨s.data.take i⟩, ⟨s.data.drop (i + 2)⟩)

/-- Case-insensitive substring match of `key` against a task's text. -/
def taskMatches (key : String) (t : Task) : Bool :=
  containsSub (pyLower key).data (pyLower t.text).data

/-- `add_task`: append when the text is non-empty and fewer than 30
tasks. -/
def addTask (tasks : List Task) (topic_key text : String) : List Task :=
  if text ≠ "" && tasks.length < 30 then
    tasks ++ [⟨text, "todo", pick_resources topic_key text 3⟩]
  else tasks

/-- `remove_match`: pop the first task containing the key
(case-insensitively); an empty key or no match leaves the list as is. -/
def removeMatch (key : String) : List Task → List Task
  | [] => []
  | t :: ts =>
    if key ≠ "" && taskMatches key t then ts else t :: removeMatch key ts

/-- `change_match` task loop: rewrite the first task containing `old`
(case-insensitively), replacing its text and resources. -/
def changeLoop (topic_key old new : String) : List Task → List Task
  | [] => []
  | t :: ts =>
    if taskMatches old t then
      { t with text := new, resources := pick_resources topic_key new 3 } :: ts
    else t :: changeLoop topic_key old new ts

/-- `change_match(old_new)`: needs an `old -> new` split with both
halves non-empty after stripping, else it is a no-op. -/
def changeMatch (tasks : List Task) (topic_key old_new : String) : List Task :=
  match splitArrow old_new with
  | none => tasks
  | some (o, n) =>
    let old := pyStrip o
    let new := pyStrip n
    if old = "" || new = "" then tasks
    else changeLoop topic_key old new tasks

/-- `reorder_hint`: move the first task containing the key to the front. -/
def reorderLoop (key : String) (before : List Task) :
    List Task → List Task
  | [] => before
  | t :: ts =>
    if key ≠ "" && taskMatches key t then t :: (before ++ ts)
    else reorderLoop key (before ++ [t]) ts

/-- One iteration of the edit-application loop of `handle_plan_refine`:
dispatch on the upper-cased verb. -/
def applyEdit (topic_key : String) (tasks : List Task) (e : String) : List Task :=
  let e2 := pyStrip e
  if startsWithS (pyUpper e2) "ADD:" then
    addTask tasks topic_key (pyStrip ⟨e2.data.drop 4⟩)
  else if startsWithS (pyUpper e2) "REMOVE:" then
    removeMatch (pyStrip ⟨e2.data.drop 7⟩) tasks
  else if startsWithS (pyUpper e2) "CHANGE:" then
    changeMatch tasks topic_key (pyStrip ⟨e2.data.drop 7⟩)
  else if startsWithS (pyUpper e2) "REORDER:" then
    reorderLoop (pyStrip ⟨e2.data.drop 8⟩) [] tasks
  else tasks

/-- The full edit loop over the (up to 5) extracted edit lines. -/
def applyEdits (topic_key : String) (tasks : List Task) (edits : List String) :
    List Task :=
  edits.foldl (applyEdit topic_key) tasks

-- ===========================
-- User state (the per-user bucket after `_ensure_state_shape`)
-- ===========================

structure HistEntry where
  role : String
  text : String
  ts : Int
  kind : Option String := none
deriving Repr, DecidableEq

structure PlanBuild where
  step : String := "DISCOVERY"
  topic : Option String := none
  discovery_questions_asked : Int := 0
  discovery_answers : DiscoveryAnswers := {}
  active_plan_id : Option String := none
  locked : Bool := false
deriving Repr, DecidableEq

structure Followup where
  pending_at : Option Int := none
  pending_for_ts : Option Int := none
  last_sent_at : Option Int := none
deriving Repr, DecidableEq

structure UState where
  mode : String := "CHAT"
  history : List HistEntry := []
  /-- `metrics.confidence` -/
  confidence : List (String × ConfRec) := []
  plan_build : PlanBuild := {}
  plans : List (String × Plan) := []
  followup : Followup := {}
  /-- `metadata.last_coach_name` (written by `_get_coach_transition_context`) -/
  last_coach_name : Option String := none
deriving Repr, DecidableEq

/-- Python truthiness of an optional string (`None` and `""` are falsy). -/
def truthyOptStr : Option String → Bool
  | none => false
  | some s => s ≠ ""

def DISCOVERY_QUESTIONS : List String :=
  ["When is the deadline (or when do you want to feel ready)? If you’re not sure, just say “soon.”",
   "What’s the main target: ML Ops / Data Engineering / both? (One word is fine.)"]

-- ===========================
-- `decide_mode_and_step` and `should_create_new_plan`
-- ===========================

def decide_mode_and_step (s : UState) (user_text topic_key : String) :
    String × Option String :=
  if skip_requested user_text then ("CHAT", none)
  else
    let pb := s.plan_build
    let has_active_plan := truthyOptStr pb.active_plan_id && pb.topic == some topic_key
    if explicit_new_plan_request user_text then ("PLAN_BUILD", some "DRAFT")
    else if refine_requested user_text && has_active_plan then
      ("PLAN_BUILD", some "REFINE")
    else if plan_requested user_text then
      if has_active_plan then ("CHAT", none) else ("PLAN_BUILD", some "DISCOVERY")
    else if s.mode == "PLAN_BUILD" && pb.step == "DISCOVERY" &&
        pb.discovery_questions_asked < (DISCOVERY_QUESTIONS.length : Int) then
      ("PLAN_BUILD", some "DISCOVERY")
    else ("CHAT", none)

def should_create_new_plan (s : UState) (user_text topic_key : String) : Bool :=
  let pb := s.plan_build
  if !truthyOptStr pb.active_plan_id then true
  else if pb.topic != some topic_key then true
  else if explicit_new_plan_request user_text then true
  else false

-- ===========================
-- Follow-up scheduling and injection
-- ===========================

/-- `FOLLOWUP_HOURS` converted to abstract time units. -/
def FOLLOWUP_DELTA : Int := 12

def lastUserMsg (history : List HistEntry) : Option HistEntry :=
  history.reverse.find? (fun m => m.role == "user")

def schedule_followup (s : UState) (now : Int) : UState :=
  { s with followup := { s.followup with
      pending_at := some (now + FOLLOWUP_DELTA),
      pending_for_ts := (lastUserMsg s.history).map (·.ts) } }

def underscoreToSpace (s : String) : String :=
  ⟨s.data.map (fun c => if c == '_' then ' ' else c)⟩

def CHECKIN_KIND : String := "checkin_12h"

def checkinMsg (topic_key : String) : String :=
  "Quick check-in 🌱 It’s been about 12 hours.\n" ++
  "How did it go on **" ++ underscoreToSpace topic_key ++ "**?\n" ++
  "Tell me one thing you did (even small), and one thing that felt hard."

/-- Python `l[-n:]`. -/
def lastN {α : Type} (n : Nat) (l : List α) : List α := l.drop (l.length - n)

/-- `_inject_due_followup_if_needed`.  The coach id only selects an
unused local name in the code, so it is ignored here. -/
def inject_due_followup_if_needed (s : UState) (_coach_id : Option String)
    (topic_key : String) (now : Int) : Bool × UState :=
  let fu := s.followup
  match fu.pending_at, fu.pending_for_ts with
  | some p, some t0 =>
    if now < p then (false, s)
    else
      match lastUserMsg s.history with
      | some u =>
        if u.ts == t0 then
          let hist := lastN 120
            (s.history ++ [⟨"coach", checkinMsg topic_key, now, some CHECKIN_KIND⟩])
          (true, { s with
                   history := hist,
                   followup := { fu with
                                 last_sent_at := some now,
                                 pending_at := none, pending_for_ts := none } })
        else (false, { s with followup :=
                { fu with pending_at := none, pending_for_ts := none } })
      | none => (false, { s with followup :=
                { fu with pending_at := none, pending_for_ts := none } })
  | _, _ => (false, s)

-- ===========================
-- Response model and handlers
-- ===========================

/-- The observable parts of `ChatResponse` the claims mention. -/
structure CResp where
  messages : List String := []
  ui_mode : String := "CHAT"
  show_plan_sidebar : Bool := false
  saved_confidence : Bool := false
  created_plan_id : Option String := none
  updated_plan_id : Option String := none
  plan : Option Plan := none
deriving Repr, DecidableEq

/-- The parsed fields of the LLM JSON reply consumed by `handle_chat`
(on JSON-parse failure the code falls back to `message := raw text`,
`plan := []`, which this models with `plan_steps = []`), plus the fresh
uuid for the plan it may create. -/
structure ChatOracle where
  message : String := ""
  question : String := ""
  ui_mode : String := "chat"
  plan_steps : List String := []
  plan_id : String := "plan_00000000"

/-- The `gemini_text` reply used by `build_plan_object` plus the fresh
uuid-based plan id. -/
structure DraftOracle where
  ideas : String := ""
  plan_id : String := "plan_00000000"

/-- The `gemini_text` reply proposing edits in `handle_plan_refine`. -/
structure RefineOracle where
  edits_raw : String := ""

def coachNameOf (coach_id : Option String) : String :=
  let c := pyLower (coach_id.getD "")
  if c = "kai" || c = "male" || c = "coach_kai" then "Kai" else "Mira"

/-- `handle_chat`.  The system prompt and LLM call only influence the
oracle; the state effects are the `metadata.last_coach_name` update and
the insertion of a model-proposed plan when the parsed `plan` array is a
non-empty list. -/
def handle_chat (s : UState) (_user_text topic_key : String) (saved_conf : Bool)
    (coach_id : Option String) (o : ChatOracle) (now : Int) : UState × CResp :=
  let coach_name := coachNameOf coach_id
  let s := { s with last_coach_name := some coach_name }
  let full_text := pyStrip (o.message ++ "\n\n" ++ o.question)
  if o.plan_steps.isEmpty then
    (s, { messages := [full_text], ui_mode := pyUpper o.ui_mode,
          saved_confidence := saved_conf })
  else
    let plan : Plan :=
      { id := o.plan_id, topic := topic_key,
        title := "Plan for " ++ topic_key,
        goal := "Build confidence step by step",
        milestones := [],
        tasks := o.plan_steps.map (fun st => ⟨st, "todo", []⟩),
        created_at := now, updated_at := now }
    let s := { s with
               plans := aset s.plans o.plan_id plan,
               plan_build := { s.plan_build with
                               active_plan_id := some o.plan_id,
                               topic := some topic_key } }
    (s, { messages := [full_text], ui_mode := pyUpper o.ui_mode,
          show_plan_sidebar := true, saved_confidence := saved_conf,
          plan := some plan })

def ALREADY_HAVE_PLAN_MSG : String :=
  "You already have a plan for this topic. Want to work on step 1 or revise anything?"

def handle_plan_draft (s : UState) (user_text topic_key : String)
    (o : DraftOracle) (now : Int) : UState × CResp :=
  let s := { s with plan_build :=
    { s.plan_build with topic := some topic_key, step := "DRAFT" } }
  if !should_create_new_plan s user_text topic_key then
    let s := { s with
               plan_build := { s.plan_build with locked := true },
               mode := "CHAT" }
    (s, { messages := [ALREADY_HAVE_PLAN_MSG], ui_mode := "CHAT",
          show_plan_sidebar := true })
  else
    let plan := build_plan_object topic_key s.plan_build.discovery_answers
      user_text o.ideas o.plan_id now
    let s := { s with
               plans := aset s.plans plan.id plan,
               plan_build := { s.plan_build with
                               active_plan_id := some plan.id,
                               locked := true, step := "REFINE" },
               mode := "CHAT" }
    (s, { messages := ["Awesome — I made a starter plan for **" ++ plan.title ++
            "**.\nI also attached learning resources under each step so you can implement right away.\nWant it more intense or more lightweight?"],
          ui_mode := "CHAT", show_plan_sidebar := true,
          created_plan_id := some plan.id, plan := some plan })

def handle_plan_discovery (s : UState) (user_text topic_key : String)
    (o : DraftOracle) (now : Int) : UState × CResp :=
  let pb := { s.plan_build with topic := some topic_key, step := "DISCOVERY" }
  let q := pb.discovery_questions_asked
  let pb :=
    if q > 0 then
      if q - 1 = 0 then
        { pb with discovery_answers :=
          { pb.discovery_answers with deadline := some (pyStrip user_text) } }
      else if q - 1 = 1 then
        { pb with discovery_answers :=
          { pb.discovery_answers with target := some (pyStrip user_text) } }
      else pb
    else pb
  let s := { s with plan_build := pb }
  if q ≥ (DISCOVERY_QUESTIONS.length : Int) then
    handle_plan_draft { s with plan_build := { pb with step := "DRAFT" } }
      user_text topic_key o now
  else
    let question := (DISCOVERY_QUESTIONS.drop q.toNat).headD ""
    let s := { s with
      plan_build := { pb with discovery_questions_asked := q + 1 },
      mode := "PLAN_BUILD" }
    (s, { messages := [question], ui_mode := "PLAN_BUILD",
          show_plan_sidebar := true })

def REFINE_DONE_MSG : String :=
  "Done — I updated your current plan (same plan, not a new one).\nResources are attached under steps. What do you want to tackle *today*?"

def handle_plan_refine (s : UState) (user_text topic_key : String)
    (dro : DraftOracle) (ro : RefineOracle) (now : Int) : UState × CResp :=
  let s := { s with plan_build :=
    { s.plan_build with topic := some topic_key, step := "REFINE" } }
  -- `if not plan_id or plan_id not in state["plans"]`: fall back to draft
  let draftFallback := fun (s : UState) =>
    handle_plan_draft
      { s with plan_build := { s.plan_build with step := "DRAFT", locked := false } }
      user_text topic_key dro now
  match s.plan_build.active_plan_id with
  | none => draftFallback s
  | some pid =>
    if pid = "" then draftFallback s
    else
      match aget s.plans pid with
      | none => draftFallback s
      | some plan =>
        if explicit_new_plan_request user_text then
          handle_plan_draft
            { s with plan_build := { s.plan_build with
                                     locked := false,
                                     step := "DRAFT",
                                     discovery_questions_asked := 0,
                                     discovery_answers := {} } }
            user_text topic_key dro now
        else if !refine_requested user_text then
          ({ s with mode := "CHAT" },
           { messages := ["Got it. Which step do you want to tackle today?"],
             ui_mode := "CHAT", show_plan_sidebar := true })
        else
          let edits := extract_bullets ro.edits_raw 5
          let tasks := applyEdits topic_key plan.tasks edits
          let plan := { plan with tasks := tasks, updated_at := now }
          ({ s with plans := aset s.plans pid plan, mode := "CHAT" },
           { messages := [REFINE_DONE_MSG], ui_mode := "CHAT",
             show_plan_sidebar := true, updated_plan_id := some pid,
             plan := some plan })

-- ===========================
-- `chat_endpoint` (one `/chat` turn on an already-shaped state)
-- ===========================

/-- `topic_key = normalize_topic_key(req.topic) or plan_build.topic or
"general"` (python `or`: `None` and `""` fall through). -/
def chatTopicKey (s : UState) (req_topic : Option String) : String :=
  match normalize_topic_key req_topic with
  | some tk => tk
  | none => pyOrStr s.plan_build.topic "general"

/-- The turn prefix of `chat_endpoint`: confidence capture (when the
request carries a topic), topic resolution, append of the incoming user
message, and the follow-up injection check.  Returns the mutated state,
the `saved_conf` flag and the topic key. -/
def chatPreState (s : UState) (message : String) (req_topic coach : Option String)
    (now : Int) : UState × Bool × String :=
  let cap :=
    match normalize_topic_key req_topic with
    | some tk => maybe_capture_confidence s.confidence message tk now
    | none => (false, s.confidence)
  let topic_key := chatTopicKey s req_topic
  let s := { s with confidence := cap.2 }
  let s := { s with history := s.history ++ [⟨"user", message, now, none⟩] }
  let s := (inject_due_followup_if_needed s coach topic_key now).2
  (s, cap.1, topic_key)

/-- The routing + dispatch segment of `chat_endpoint`: store the decided
mode (and step, when one is returned), then run the matching handler. -/
def chatDispatch (s : UState) (message topic_key : String) (saved_conf : Bool)
    (coach : Option String) (co : ChatOracle) (dro : DraftOracle)
    (ro : RefineOracle) (now : Int) : UState × CResp :=
  let ms := decide_mode_and_step s message topic_key
  let s := { s with mode := ms.1 }
  let s :=
    match ms.2 with
    | some st => { s with plan_build := { s.plan_build with step := st } }
    | none => s
  if ms.1 = "PLAN_BUILD" then
    if ms.2 = some "DISCOVERY" then handle_plan_discovery s message topic_key dro now
    else if ms.2 = some "DRAFT" then handle_plan_draft s message topic_key dro now
    else handle_plan_refine s message topic_key dro ro now
  else handle_chat s message topic_key saved_conf coach co now

def chatTurn (s : UState) (message : String) (req_topic coach : Option String)
    (co : ChatOracle) (dro : DraftOracle) (ro : RefineOracle) (now : Int) :
    UState × CResp :=
  let pre := chatPreState s message req_topic coach now
  let hr := chatDispatch pre.1 message pre.2.2 pre.2.1 coach co dro ro now
  -- append coach messages, keep the last 60 entries, schedule follow-up
  let sOut := { hr.1 with
                history := lastN 60
                  (hr.1.history ++
                   hr.2.messages.map (fun t => ⟨"assistant", t, now, none⟩)) }
  (schedule_followup sOut now, hr.2)

-- ===========================
-- `GET /chat/history` (state effect on an already-shaped state)
-- ===========================

/-- `get_history` only updates `metadata.last_coach_name` (when a coach
query parameter is present); it reads history without invoking
`_inject_due_followup_if_needed`. -/
def getHistoryState (s : UState) (coach : Option String) : UState :=
  let current_coach := pyStrip (coach.getD "")
  if current_coach ≠ "" then { s with last_coach_name := some current_coach } else s

/-- The message list `get_history` returns. -/
def getHistoryMessages (s : UState) : List HistEntry := s.history

-- ===========================
-- `backend/notify.py`: `run_checkins`
-- ===========================

/-- A row of `users_activity.json`.  Timestamps are pre-parsed: `none`
stands for a missing field (and, for `last_active`, also an unparsable
one — both `continue`; an unparsable `last_checkin_email_utc` falls
through to sending, which `none` also does). -/
structure NUser where
  email : Option String := none
  last_active : Option Int := none
  last_checkin_email : Option Int := none
deriving Repr, DecidableEq

/-- The send attempt: on success (`sendOk`) the per-user timestamp is
advanced; on failure (an exception in `_send_email`, modelled as
`sendOk = false`) the record is left untouched and the loop continues. -/
def checkinSend (now : Int) (sendOk : String → Bool) (u : NUser) (e : String) :
    NUser × Bool :=
  if sendOk e then ({ u with last_checkin_email := some now }, true)
  else (u, false)

/-- The per-user body of the `run_checkins` loop. -/
def checkinStep (now cutoff cooldownCutoff : Int) (sendOk : String → Bool)
    (u : NUser) : NUser × Bool :=
  match u.email, u.last_active with
  | some e, some la =>
    if e = "" then (u, false)
    else if la > cutoff then (u, false)
    else
      match u.last_checkin_email with
      | some lc =>
        if lc > cooldownCutoff then (u, false)
        else checkinSend now sendOk u e
      | none => checkinSend now sendOk u e
  | _, _ => (u, false)

/-- `run_checkins`: fold over every user, returning the updated rows in
order plus the `emailed` and `considered` counters. -/
def run_checkins (users : List (String × NUser))
    (now checkinAfter cooldownHours : Int) (sendOk : String → Bool) :
    List (String × NUser) × Nat × Nat :=
  let cutoff := now - checkinAfter
  let cooldownCutoff := now - cooldownHours
  users.foldl
    (fun acc p =>
      let r := checkinStep now cutoff cooldownCutoff sendOk p.2
      (acc.1 ++ [(p.1, r.1)], acc.2.1 + (if r.2 then 1 else 0), acc.2.2 + 1))
    ([], 0, 0)

-- ===========================
-- Association-list lemmas
-- ===========================

theorem aget_aset_self {α : Type} (m : List (String × α)) (k : String) (v : α) :
    aget (aset m k v) k = some v := by
  induction m with
  | nil => simp [aget, aset, List.find?]
  | cons p ps ih =>
    by_cases h : p.1 == k
    · simp [aset, h, aget, List.find?]
    · simp only [aset, h, if_false, Bool.false_eq_true]
      simpa [aget, List.find?, h] using ih

theorem aget_aset_ne {α : Type} (m : List (String × α)) (k k' : String) (v : α)
    (h : k' ≠ k) : aget (aset m k v) k' = aget m k' := by
  induction m with
  | nil =>
    simp [aget, aset, List.find?, show (k == k') = false by
      simpa [beq_iff_eq] using fun e => h e.symm]
  | cons p ps ih =>
    by_cases hp : p.1 == k
    · have hpk : p.1 = k := by simpa [beq_iff_eq] using hp
      simp [aset, hp, aget, List.find?, hpk,
        show (k == k') = false by simpa [beq_iff_eq] using fun e => h e.symm]
    · simp only [aset, hp, if_false, Bool.false_eq_true]
      by_cases hq : p.1 == k'
      · simp [aget, List.find?, hq]
      · simp only [aget, List.find?, hq] at ih ⊢
        exact ih

-- ===========================
-- C9
-- ===========================

/-- C9: `maybe_capture_confidence` accepts the value zero, outside the
1–10 rating the spec describes: for the message `"0"` (and `"0/10"`) it
returns `True`, sets `confidence.last` for the topic to `0`, and — with
no baseline stored — sets `confidence.baseline` to `0`; a stored
baseline survives but `last` still becomes `0`. -/
theorem C9_zero_confidence_accepted :
    maybe_capture_confidence [] "0" "general" 7 =
      (true, [("general", { baseline := some 0, last := some 0, updated_at := some 7 })]) ∧
    maybe_capture_confidence [] "0/10" "general" 7 =
      (true, [("general", { baseline := some 0, last := some 0, updated_at := some 7 })]) ∧
    maybe_capture_confidence
        [("general", { baseline := some 5, last := some 5, updated_at := some 1 })]
        "0" "general" 7 =
      (true, [("general", { baseline := some 5, last := some 0, updated_at := some 7 })]) := by
  refine ⟨by decide, by decide, by decide⟩

-- ===========================
-- C4
-- ===========================

/-- C4: for every accepted numeric message (a bare integer or an `N/10`
form whose value passes the `0..10` range check), the updated per-topic
record has `baseline` equal to the previously stored baseline when one
exists (write-once: later numeric messages never overwrite it) and equal
to the new value when none exists (first occurrence sets it), while
`last` is overwritten with the new value every time. -/
theorem C4_baseline_write_once_last_overwritten
    (conf : List (String × ConfRec)) (msg t : String) (now : Int) (v : Nat)
    (hv : confValue (pyLower (pyStrip msg)) = some v) (hr : v ≤ 10) :
    (maybe_capture_confidence conf msg t now).1 = true ∧
    aget (maybe_capture_confidence conf msg t now).2 t =
      some { baseline := some ((((aget conf t).getD {}).baseline).getD v),
             last := some v, updated_at := some now } := by
  have hnot : ¬ v > 10 := by omega
  unfold maybe_capture_confidence
  rw [hv]
  simp only [hnot, if_false]
  exact ⟨trivial, aget_aset_self ..⟩

/-- Witness for C4 at the concrete first message `"7"` on an empty
confidence map. -/
theorem C4_witness :
    (maybe_capture_confidence [] "7" "general" 0).1 = true ∧
    aget (maybe_capture_confidence [] "7" "general" 0).2 "general" =
      some { baseline := some ((((aget ([] : List (String × ConfRec)) "general").getD {}).baseline).getD 7),
             last := some 7, updated_at := some 0 } :=
  C4_baseline_write_once_last_overwritten [] "7" "general" 0 7 (by decide) (by decide)

-- ===========================
-- C5
-- ===========================

/-- C5: `build_plan_object` always returns a plan with a non-empty task
list: when the bullet extraction of the generator's text comes back
empty (empty or unparsable upstream string), the hardcoded 8-item
fallback list is substituted. -/
theorem C5_plan_tasks_nonempty (topic_key : String) (ans : DiscoveryAnswers)
    (user_text ideas plan_id : String) (now : Int) :
    (build_plan_object topic_key ans user_text ideas plan_id now).tasks ≠ [] ∧
    ((extract_bullets ideas 10).isEmpty = true →
      (build_plan_object topic_key ans user_text ideas plan_id now).tasks.map Task.text
        = FALLBACK_TASKS) := by
  constructor
  · unfold build_plan_object
    cases hl : extract_bullets ideas 10 with
    | nil => simp [FALLBACK_TASKS]
    | cons a as => simp
  · intro h
    unfold build_plan_object
    cases hl : extract_bullets ideas 10 with
    | nil => simp [FALLBACK_TASKS]
    | cons a as =>
      rw [hl] at h
      simp [List.isEmpty] at h

/-- Witness for C5 with the empty upstream string. -/
theorem C5_witness :
    (build_plan_object "general" {} "msg" "" "plan_x" 3).tasks ≠ [] ∧
    (build_plan_object "general" {} "msg" "" "plan_x" 3).tasks.map Task.text
      = FALLBACK_TASKS :=
  ⟨(C5_plan_tasks_nonempty "general" {} "msg" "" "plan_x" 3).1,
   (C5_plan_tasks_nonempty "general" {} "msg" "" "plan_x" 3).2 (by decide)⟩

-- ===========================
-- C6 helper lemmas
-- ===========================

theorem changeLoop_no_match (tk old new : String) (tasks : List Task)
    (h : ∀ u ∈ tasks, taskMatches old u = false) :
    changeLoop tk old new tasks = tasks := by
  induction tasks with
  | nil => rfl
  | cons t ts ih =>
    have ht := h t (List.mem_cons_self ..)
    simp only [changeLoop, ht, Bool.false_eq_true, if_false, List.cons.injEq,
      true_and]
    exact ih (fun u hu => h u (List.mem_cons_of_mem _ hu))

theorem changeLoop_first_match (tk old new : String) (pre : List Task)
    (t : Task) (post : List Task)
    (hpre : ∀ u ∈ pre, taskMatches old u = false)
    (ht : taskMatches old t = true) :
    changeLoop tk old new (pre ++ t :: post) =
      pre ++ { t with text := new, resources := pick_resources tk new 3 } :: post := by
  induction pre with
  | nil => simp [changeLoop, ht]
  | cons u us ih =>
    have hu := hpre u (List.mem_cons_self ..)
    simp only [List.cons_append, changeLoop, hu, Bool.false_eq_true, if_false,
      List.cons.injEq, true_and]
    exact ih (fun w hw => hpre w (List.mem_cons_of_mem _ hw))

theorem removeMatch_no_match (key : String) (tasks : List Task)
    (h : ∀ u ∈ tasks, taskMatches key u = false) :
    removeMatch key tasks = tasks := by
  induction tasks with
  | nil => rfl
  | cons t ts ih =>
    have ht := h t (List.mem_cons_self ..)
    simp only [removeMatch, ht, Bool.and_false, Bool.false_eq_true, if_false,
      List.cons.injEq, true_and]
    exact ih (fun u hu => h u (List.mem_cons_of_mem _ hu))

theorem reorderLoop_no_match (key : String) (before tasks : List Task)
    (h : ∀ u ∈ tasks, taskMatches key u = false) :
    reorderLoop key before tasks = before ++ tasks := by
  induction tasks generalizing before with
  | nil => simp [reorderLoop]
  | cons t ts ih =>
    have ht := h t (List.mem_cons_self ..)
    simp only [reorderLoop, ht, Bool.and_false, Bool.false_eq_true, if_false]
    rw [ih (before ++ [t]) (fun u hu => h u (List.mem_cons_of_mem _ hu))]
    simp

-- ===========================
-- C6
-- ===========================

/-- C6: on tasks `["Do A", "Do B"]` the single edit
`"CHANGE: Do A -> Do A twice"` rewrites the first task's text to
`"Do A twice"` and leaves `"Do B"` unchanged; in general a `CHANGE` edit
rewrites exactly the first task whose text contains the old text
case-insensitively (all earlier tasks not matching), and a
`CHANGE`/`REMOVE`/`REORDER` edit whose text matches no task leaves the
task list unchanged. -/
theorem C6_refine_change_edit :
    (applyEdits "general" [⟨"Do A", "todo", []⟩, ⟨"Do B", "todo", []⟩]
        ["CHANGE: Do A -> Do A twice"] =
      [⟨"Do A twice", "todo", []⟩, ⟨"Do B", "todo", []⟩]) ∧
    (∀ tk old new pre t post,
      (∀ u ∈ pre, taskMatches old u = false) → taskMatches old t = true →
      changeLoop tk old new (pre ++ t :: post) =
        pre ++ { t with text := new, resources := pick_resources tk new 3 } :: post) ∧
    (∀ tk old new tasks, (∀ u ∈ tasks, taskMatches old u = false) →
      changeLoop tk old new tasks = tasks) ∧
    (∀ key tasks, (∀ u ∈ tasks, taskMatches key u = false) →
      removeMatch key tasks = tasks) ∧
    (∀ key tasks, (∀ u ∈ tasks, taskMatches key u = false) →
      reorderLoop key [] tasks = tasks) :=
  ⟨by decide,
   fun tk old new pre t post h1 h2 => changeLoop_first_match tk old new pre t post h1 h2,
   fun tk old new tasks h => changeLoop_no_match tk old new tasks h,
   fun key tasks h => removeMatch_no_match key tasks h,
   fun key tasks h => reorderLoop_no_match key [] tasks h⟩

/-- Witness for C6: the general conjuncts applied at concrete inputs. -/
theorem C6_witness :
    (changeLoop "general" "do b" "Do B harder" ([⟨"Do A", "todo", []⟩] ++ ⟨"Do B", "todo", []⟩ :: []) =
      [⟨"Do A", "todo", []⟩] ++
        ({ (⟨"Do B", "todo", []⟩ : Task) with
           text := "Do B harder",
           resources := pick_resources "general" "Do B harder" 3 } : Task) :: []) ∧
    (changeLoop "general" "nothing like this" "x" [⟨"Do A", "todo", []⟩] = [⟨"Do A", "todo", []⟩]) ∧
    (removeMatch "nothing like this" [⟨"Do A", "todo", []⟩] = [⟨"Do A", "todo", []⟩]) ∧
    (reorderLoop "nothing like this" [] [⟨"Do A", "todo", []⟩] = [⟨"Do A", "todo", []⟩]) :=
  ⟨C6_refine_change_edit.2.1 "general" "do b" "Do B harder" [⟨"Do A", "todo", []⟩]
     ⟨"Do B", "todo", []⟩ [] (by decide) (by decide),
   C6_refine_change_edit.2.2.1 "general" "nothing like this" "x" [⟨"Do A", "todo", []⟩] (by decide),
   C6_refine_change_edit.2.2.2.1 "nothing like this" [⟨"Do A", "todo", []⟩] (by decide),
   C6_refine_change_edit.2.2.2.2 "nothing like this" [⟨"Do A", "todo", []⟩] (by decide)⟩

-- ===========================
-- C8 helper lemmas
-- ===========================

theorem checkinStep_send_failure (now cutoff cool : Int) (sendOk : String → Bool)
    (u : NUser) (e : String) (hE : u.email = some e) (hs : sendOk e = false) :
    checkinStep now cutoff cool sendOk u = (u, false) := by
  rcases u with ⟨em, la, lc⟩
  simp only [NUser.email] at hE
  subst hE
  cases la with
  | none => rfl
  | some a =>
    cases lc with
    | none =>
      unfold checkinStep checkinSend
      dsimp only
      split_ifs <;> simp_all
    | some c =>
      unfold checkinStep checkinSend
      dsimp only
      split_ifs <;> simp_all

theorem checkin_foldl_acc (now cutoff cool : Int) (sendOk : String → Bool) :
    ∀ (users : List (String × NUser)) (acc : List (String × NUser) × Nat × Nat),
      (users.foldl (fun acc p =>
        let r := checkinStep now cutoff cool sendOk p.2
        (acc.1 ++ [(p.1, r.1)], acc.2.1 + (if r.2 then 1 else 0), acc.2.2 + 1)) acc).1
      = acc.1 ++ users.map (fun p => (p.1, (checkinStep now cutoff cool sendOk p.2).1))
  | [], acc => by simp
  | p :: rest, acc => by
    rw [List.foldl_cons, checkin_foldl_acc now cutoff cool sendOk rest _]
    simp

theorem checkin_foldl_considered (now cutoff cool : Int) (sendOk : String → Bool) :
    ∀ (users : List (String × NUser)) (acc : List (String × NUser) × Nat × Nat),
      (users.foldl (fun acc p =>
        let r := checkinStep now cutoff cool sendOk p.2
        (acc.1 ++ [(p.1, r.1)], acc.2.1 + (if r.2 then 1 else 0), acc.2.2 + 1)) acc).2.2
      = acc.2.2 + users.length
  | [], acc => by simp
  | p :: rest, acc => by
    rw [List.foldl_cons, checkin_foldl_considered now cutoff cool sendOk rest _]
    simp only [List.length_cons]
    omega

-- ===========================
-- C8
-- ===========================

/-- C8: when the email send for a user fails (the send oracle returns
`false`, modelling an exception from `_send_email`), that user's
`last_checkin_email_utc` timestamp — indeed the whole record — is left
unchanged so the send is retried on the next run, and the batch
continues: the run processes every user independently (its output list
is a per-user map) and considers all of them. -/
theorem C8_send_failure_keeps_timestamp_and_batch_continues :
    (∀ (now cutoff cool : Int) (sendOk : String → Bool) (u : NUser) (e : String),
      u.email = some e → sendOk e = false →
      checkinStep now cutoff cool sendOk u = (u, false)) ∧
    (∀ (users : List (String × NUser)) (now cA cH : Int) (sendOk : String → Bool),
      (run_checkins users now cA cH sendOk).1 =
        users.map (fun p => (p.1, (checkinStep now (now - cA) (now - cH) sendOk p.2).1)) ∧
      (run_checkins users now cA cH sendOk).2.2 = users.length) :=
  ⟨fun now cutoff cool sendOk u e hE hs =>
     checkinStep_send_failure now cutoff cool sendOk u e hE hs,
   fun users now cA cH sendOk =>
     ⟨checkin_foldl_acc now (now - cA) (now - cH) sendOk users ([], 0, 0),
      by
        have h := checkin_foldl_considered now (now - cA) (now - cH) sendOk
          users ([], 0, 0)
        simpa [run_checkins] using h⟩⟩

/-- Witness for C8: one overdue user whose send fails is returned
unchanged, and a two-user batch with a failing first send still
processes the second user. -/
theorem C8_witness :
    checkinStep 100 88 88 (fun _ => false)
        { email := some "a@b.c", last_active := some 0 } =
      ({ email := some "a@b.c", last_active := some 0 }, false) ∧
    (run_checkins
        [("u1", { email := some "a@b.c", last_active := some 0 }),
         ("u2", { email := some "c@d.e", last_active := some 0 })]
        100 12 12 (fun _ => false)).1 =
      [("u1", (checkinStep 100 88 88 (fun _ => false)
                 { email := some "a@b.c", last_active := some 0 }).1),
       ("u2", (checkinStep 100 88 88 (fun _ => false)
                 { email := some "c@d.e", last_active := some 0 }).1)] :=
  ⟨C8_send_failure_keeps_timestamp_and_batch_continues.1 100 88 88 (fun _ => false)
     { email := some "a@b.c", last_active := some 0 } "a@b.c" rfl rfl,
   (C8_send_failure_keeps_timestamp_and_batch_continues.2
     [("u1", { email := some "a@b.c", last_active := some 0 }),
      ("u2", { email := some "c@d.e", last_active := some 0 })]
     100 12 12 (fun _ => false)).1⟩

-- ===========================
-- Shared concrete fixtures
-- ===========================

def samplePlan : Plan :=
  { id := "plan_old", topic := "general", title := "Personal Improvement Plan",
    goal := "g", milestones := [],
    tasks := [⟨"Do A", "todo", []⟩, ⟨"Do B", "todo", []⟩],
    created_at := 0, updated_at := 0 }

/-- A shaped state holding one active plan for topic `general`. -/
def sampleActiveState : UState :=
  { mode := "CHAT",
    history := [⟨"user", "hi", 50, none⟩],
    plan_build := { step := "REFINE",
                    topic := some "general",
                    active_plan_id := some "plan_old" },
    plans := [("plan_old", samplePlan)],
    followup := { pending_at := some 100,
                  pending_for_ts := some 50 } }

-- ===========================
-- C2 helper lemmas
-- ===========================

theorem should_create_new_plan_iff (s : UState) (msg t : String) :
    should_create_new_plan s msg t = true ↔
      (truthyOptStr s.plan_build.active_plan_id = false ∨
       s.plan_build.topic ≠ some t ∨ explicit_new_plan_request msg = true) := by
  unfold should_create_new_plan
  by_cases h1 : truthyOptStr s.plan_build.active_plan_id
  · by_cases h2 : s.plan_build.topic = some t
    · by_cases h3 : explicit_new_plan_request msg <;> simp [h1, h2, h3]
    · simp [h1, h2]
  · simp [Bool.not_eq_true] at h1
    simp [h1]

theorem handle_plan_draft_blocked (s : UState) (msg t : String)
    (o : DraftOracle) (now : Int)
    (hA : truthyOptStr s.plan_build.active_plan_id = true)
    (hN : explicit_new_plan_request msg = false) :
    (handle_plan_draft s msg t o now).1.plans = s.plans ∧
    (handle_plan_draft s msg t o now).2.created_plan_id = none ∧
    (handle_plan_draft s msg t o now).2.plan = none ∧
    (handle_plan_draft s msg t o now).1.mode = "CHAT" ∧
    (handle_plan_draft s msg t o now).1.plan_build.step = "DRAFT" ∧
    (handle_plan_draft s msg t o now).1.plan_build.locked = true ∧
    (handle_plan_draft s msg t o now).2.messages = [ALREADY_HAVE_PLAN_MSG] := by
  have hsc : should_create_new_plan
      { s with plan_build :=
        { s.plan_build with topic := some t, step := "DRAFT" } } msg t = false := by
    unfold should_create_new_plan
    simp [hA, hN]
  unfold handle_plan_draft
  simp [hsc]

-- ===========================
-- C2
-- ===========================

/-- C2 (amended): `should_create_new_plan` returns true iff no truthy
active plan id is stored, or the stored active topic differs from the
current topic key, or the text matches an explicit new-plan phrase.
When the draft handler is blocked (truthy active id, no new-plan phrase
— after the handler has already rewritten `plan_build.topic` to the
current topic, the stored-topic disequality can no longer fire), it
builds no plan and replies with a pointer to the existing plan, locking
the build and setting mode `CHAT` while the step stays `DRAFT` (it does
not enter `REFINE`). -/
theorem C2_plan_stability_gate :
    (∀ (s : UState) (msg t : String),
      should_create_new_plan s msg t = true ↔
        (truthyOptStr s.plan_build.active_plan_id = false ∨
         s.plan_build.topic ≠ some t ∨ explicit_new_plan_request msg = true)) ∧
    (∀ (s : UState) (msg t : String) (o : DraftOracle) (now : Int),
      truthyOptStr s.plan_build.active_plan_id = true →
      explicit_new_plan_request msg = false →
      (handle_plan_draft s msg t o now).1.plans = s.plans ∧
      (handle_plan_draft s msg t o now).2.created_plan_id = none ∧
      (handle_plan_draft s msg t o now).2.plan = none ∧
      (handle_plan_draft s msg t o now).1.mode = "CHAT" ∧
      (handle_plan_draft s msg t o now).1.plan_build.step = "DRAFT" ∧
      (handle_plan_draft s msg t o now).1.plan_build.locked = true ∧
      (handle_plan_draft s msg t o now).2.messages = [ALREADY_HAVE_PLAN_MSG]) :=
  ⟨fun s msg t => should_create_new_plan_iff s msg t,
   fun s msg t o now hA hN => handle_plan_draft_blocked s msg t o now hA hN⟩

/-- Witness for C2 at a concrete blocked draft. -/
theorem C2_witness :
    (should_create_new_plan sampleActiveState "lets keep going" "general" = true ↔
      (truthyOptStr sampleActiveState.plan_build.active_plan_id = false ∨
       sampleActiveState.plan_build.topic ≠ some "general" ∨
       explicit_new_plan_request "lets keep going" = true)) ∧
    (handle_plan_draft sampleActiveState "lets keep going" "general" {} 5).1.plans
      = sampleActiveState.plans ∧
    (handle_plan_draft sampleActiveState "lets keep going" "general" {} 5).1.mode
      = "CHAT" :=
  ⟨C2_plan_stability_gate.1 sampleActiveState "lets keep going" "general",
   (C2_plan_stability_gate.2 sampleActiveState "lets keep going" "general" {} 5
      (by decide) (by decide)).1,
   (C2_plan_stability_gate.2 sampleActiveState "lets keep going" "general" {} 5
      (by decide) (by decide)).2.2.2.1⟩

/-- C2 counterexample: with an active plan for the current topic and no
new-plan wording, the blocked draft handler does NOT redirect into
`REFINE`: the post-state has step `DRAFT` and mode `CHAT`. -/
theorem C2_counterexample :
    should_create_new_plan
      { sampleActiveState with plan_build :=
        { sampleActiveState.plan_build with topic := some "general", step := "DRAFT" } }
      "lets keep going" "general" = false ∧
    (handle_plan_draft sampleActiveState "lets keep going" "general" {} 5).1.plans
      = sampleActiveState.plans ∧
    (handle_plan_draft sampleActiveState "lets keep going" "general" {} 5).1.plan_build.step
      ≠ "REFINE" ∧
    (handle_plan_draft sampleActiveState "lets keep going" "general" {} 5).1.mode
      ≠ "PLAN_BUILD" := by
  refine ⟨by decide, by decide, by decide, by decide⟩

-- ===========================
-- History-preservation lemmas for the handlers
-- ===========================

theorem handle_chat_history (s : UState) (m t : String) (sc : Bool)
    (c : Option String) (o : ChatOracle) (now : Int) :
    (handle_chat s m t sc c o now).1.history = s.history := by
  unfold handle_chat
  by_cases h : o.plan_steps.isEmpty <;> simp [h]

theorem handle_plan_draft_history (s : UState) (m t : String)
    (o : DraftOracle) (now : Int) :
    (handle_plan_draft s m t o now).1.history = s.history := by
  unfold handle_plan_draft
  dsimp only
  split <;> rfl

theorem handle_plan_discovery_history (s : UState) (m t : String)
    (o : DraftOracle) (now : Int) :
    (handle_plan_discovery s m t o now).1.history = s.history := by
  unfold handle_plan_discovery
  dsimp only
  split
  · rw [handle_plan_draft_history]
  · rfl

theorem handle_plan_refine_history (s : UState) (m t : String)
    (dro : DraftOracle) (ro : RefineOracle) (now : Int) :
    (handle_plan_refine s m t dro ro now).1.history = s.history := by
  unfold handle_plan_refine
  dsimp only
  rcases hid : s.plan_build.active_plan_id with _ | pid
  · rw [handle_plan_draft_history]
  · by_cases hpe : pid = ""
    · simp only [hpe, if_true]
      rw [handle_plan_draft_history]
    · simp only [hpe, if_false]
      rcases hg : aget s.plans pid with _ | plan
      · rw [handle_plan_draft_history]
      · by_cases hnp : explicit_new_plan_request m
        · simp only [hnp, if_true]
          rw [handle_plan_draft_history]
        · by_cases hrr : refine_requested m <;> simp [hnp, hrr]

theorem chatDispatch_history (s : UState) (m tk : String) (sc : Bool)
    (c : Option String) (co : ChatOracle) (dro : DraftOracle)
    (ro : RefineOracle) (now : Int) :
    (chatDispatch s m tk sc c co dro ro now).1.history = s.history := by
  unfold chatDispatch
  dsimp only
  rcases hms : decide_mode_and_step s m tk with ⟨mm, st⟩
  cases st with
  | none =>
    by_cases hm : mm = "PLAN_BUILD" <;>
      simp [hm, handle_chat_history, handle_plan_refine_history,
        handle_plan_discovery_history, handle_plan_draft_history]
  | some stv =>
    by_cases hm : mm = "PLAN_BUILD" <;>
      by_cases h1 : stv = "DISCOVERY" <;> by_cases h2 : stv = "DRAFT" <;>
        simp [hm, h1, h2, handle_chat_history, handle_plan_refine_history,
          handle_plan_discovery_history, handle_plan_draft_history]

-- ===========================
-- Follow-up injection lemmas
-- ===========================

theorem lastUserMsg_append_user (l : List HistEntry) (e : HistEntry)
    (h : e.role = "user") : lastUserMsg (l ++ [e]) = some e := by
  simp [lastUserMsg, List.reverse_append, List.find?, h]

theorem inject_due_followup_fires (s : UState) (c : Option String) (tk : String)
    (now p t0 : Int) (u : HistEntry)
    (hpa : s.followup.pending_at = some p)
    (hpf : s.followup.pending_for_ts = some t0)
    (hdue : ¬ now < p)
    (hlu : lastUserMsg s.history = some u) (hts : u.ts = t0) :
    inject_due_followup_if_needed s c tk now =
      (true,
       { s with
         history := lastN 120
           (s.history ++ [⟨"coach", checkinMsg tk, now, some CHECKIN_KIND⟩]),
         followup := { s.followup with
                       last_sent_at := some now,
                       pending_at := none, pending_for_ts := none } }) := by
  unfold inject_due_followup_if_needed
  dsimp only
  rw [hpa, hpf]
  simp [hdue, hlu, hts]

theorem inject_history_unchanged_of_ts_ne (s : UState) (c : Option String)
    (tk : String) (now : Int) (u : HistEntry)
    (hlu : lastUserMsg s.history = some u) (hu : u.ts = now)
    (hne : s.followup.pending_for_ts ≠ some now) :
    (inject_due_followup_if_needed s c tk now).2.history = s.history := by
  unfold inject_due_followup_if_needed
  dsimp only
  rcases hpa : s.followup.pending_at with _ | p
  · simp [hpa]
  · rcases hpf : s.followup.pending_for_ts with _ | t0
    · simp [hpa, hpf]
    · have ht0 : t0 ≠ now := by
        intro e
        exact hne (by rw [hpf, e])
      by_cases hlt : now < p
      · simp [hpa, hpf, hlt]
      · have hbe : (u.ts == t0) = false := by
          rw [hu]
          simpa using fun e => ht0 e.symm
        simp [hpa, hpf, hlt, hlu, hbe]

theorem chatPreState_history_of_ts_ne (s : UState) (msg : String)
    (reqT coach : Option String) (now : Int)
    (hne : s.followup.pending_for_ts ≠ some now) :
    (chatPreState s msg reqT coach now).1.history =
      s.history ++ [⟨"user", msg, now, none⟩] := by
  unfold chatPreState
  dsimp only
  exact inject_history_unchanged_of_ts_ne _ coach (chatTopicKey s reqT) now
    ⟨"user", msg, now, none⟩ (lastUserMsg_append_user _ _ rfl) rfl hne

-- ===========================
-- C7
-- ===========================

/-- C7 (amended): the injection behaviour lives only in
`_inject_due_followup_if_needed`: (1) invoked with a due pending
follow-up whose scheduling user message is still the last user message,
it appends the synthetic coach check-in and clears the pending marker;
(2) `chat_endpoint` invokes it only after appending the incoming user
message, whose fresh timestamp differs from `pending_for_ts`, so a chat
turn never adds a check-in entry (the marker is cleared and immediately
rescheduled instead); (3) `get_history` does not invoke it at all, so a
`/chat/history` fetch neither appends a check-in nor clears the
marker. -/
theorem C7_followup_injection :
    (∀ (s : UState) (c : Option String) (tk : String) (now p t0 : Int)
       (u : HistEntry),
      s.followup.pending_at = some p → s.followup.pending_for_ts = some t0 →
      ¬ now < p → lastUserMsg s.history = some u → u.ts = t0 →
      inject_due_followup_if_needed s c tk now =
        (true,
         { s with
           history := lastN 120
             (s.history ++ [⟨"coach", checkinMsg tk, now, some CHECKIN_KIND⟩]),
           followup := { s.followup with
                         last_sent_at := some now,
                         pending_at := none, pending_for_ts := none } })) ∧
    (∀ (s : UState) (msg : String) (reqT coach : Option String)
       (co : ChatOracle) (dro : DraftOracle) (ro : RefineOracle) (now : Int),
      s.followup.pending_for_ts ≠ some now →
      ((chatTurn s msg reqT coach co dro ro now).1.history.countP
          (fun e => e.kind == some CHECKIN_KIND)) ≤
        s.history.countP (fun e => e.kind == some CHECKIN_KIND)) ∧
    (∀ (s : UState) (c : Option String),
      (getHistoryState s c).history = s.history ∧
      (getHistoryState s c).followup = s.followup) := by
  refine ⟨fun s c tk now p t0 u hpa hpf hdue hlu hts =>
      inject_due_followup_fires s c tk now p t0 u hpa hpf hdue hlu hts,
    ?_, ?_⟩
  · intro s msg reqT coach co dro ro now hne
    have hhist : (chatTurn s msg reqT coach co dro ro now).1.history =
        lastN 60
          ((chatDispatch (chatPreState s msg reqT coach now).1 msg
              (chatPreState s msg reqT coach now).2.2
              (chatPreState s msg reqT coach now).2.1 coach co dro ro now).1.history ++
            ((chatDispatch (chatPreState s msg reqT coach now).1 msg
              (chatPreState s msg reqT coach now).2.2
              (chatPreState s msg reqT coach now).2.1 coach co dro ro now).2.messages.map
              (fun t => ⟨"assistant", t, now, none⟩))) := rfl
    rw [hhist, chatDispatch_history, chatPreState_history_of_ts_ne s msg reqT coach now hne]
    unfold lastN
    refine le_trans (List.Sublist.countP_le _ (List.drop_sublist _ _)) ?_
    rw [List.countP_append, List.countP_append]
    have hz : List.countP (fun e => e.kind == some CHECKIN_KIND)
        (((chatDispatch (chatPreState s msg reqT coach now).1 msg
            (chatPreState s msg reqT coach now).2.2
            (chatPreState s msg reqT coach now).2.1 coach co dro ro now).2.messages.map
          (fun t => (⟨"assistant", t, now, none⟩ : HistEntry)))) = 0 := by
      rw [List.countP_eq_zero]
      intro a ha
      rcases List.mem_map.mp ha with ⟨t, _, rfl⟩
      simp
    rw [hz]
    simp
  · intro s c
    unfold getHistoryState
    dsimp only
    split <;> exact ⟨rfl, rfl⟩

/-- Witness for C7: the helper fires on a due state whose last user
message is the scheduling one; a chat turn on that same state adds no
check-in entry; a history fetch changes nothing. -/
theorem C7_witness :
    inject_due_followup_if_needed sampleActiveState none "general" 200 =
      (true,
       { sampleActiveState with
         history := lastN 120
           (sampleActiveState.history ++
            [⟨"coach", checkinMsg "general", 200, some CHECKIN_KIND⟩]),
         followup := { sampleActiveState.followup with
                       last_sent_at := some 200,
                       pending_at := none, pending_for_ts := none } }) ∧
    ((chatTurn sampleActiveState "ok cool" none none {} {} {} 200).1.history.countP
        (fun e => e.kind == some CHECKIN_KIND)) ≤
      sampleActiveState.history.countP (fun e => e.kind == some CHECKIN_KIND) ∧
    (getHistoryState sampleActiveState (some "kai")).history =
      sampleActiveState.history :=
  ⟨C7_followup_injection.1 sampleActiveState none "general" 200 100 50
     ⟨"user", "hi", 50, none⟩ rfl rfl (by decide) (by decide) rfl,
   C7_followup_injection.2.1 sampleActiveState "ok cool" none none {} {} {} 200
     (by decide),
   (C7_followup_injection.2.2 sampleActiveState (some "kai")).1⟩

/-- C7 counterexample: with a due pending follow-up (`pending_at = 100`,
current time `200`) and no user message newer than the scheduling one,
a `/chat/history` fetch appends no synthetic coach message and leaves
the pending marker set — `get_history` never invokes the injector (its
state effect does not even consult the clock). -/
theorem C7_counterexample :
    (100 : Int) ≤ 200 ∧
    lastUserMsg sampleActiveState.history = some ⟨"user", "hi", 50, none⟩ ∧
    sampleActiveState.followup.pending_at = some 100 ∧
    sampleActiveState.followup.pending_for_ts = some 50 ∧
    getHistoryState sampleActiveState none = sampleActiveState ∧
    (getHistoryState sampleActiveState none).followup.pending_at = some 100 := by
  refine ⟨by decide, by decide, by decide, by decide, by decide, by decide⟩

-- ===========================
-- Plans-preservation lemmas (for C1)
-- ===========================

theorem aset_map_fst_of_isSome {α : Type} (m : List (String × α)) (k : String)
    (v : α) (h : (aget m k).isSome) :
    (aset m k v).map Prod.fst = m.map Prod.fst := by
  induction m with
  | nil => simp [aget, List.find?] at h
  | cons p ps ih =>
    by_cases hp : p.1 == k
    · have hpk : p.1 = k := by simpa [beq_iff_eq] using hp
      simp [aset, hp, hpk]
    · have h' : (aget ps k).isSome := by
        simpa [aget, List.find?, hp] using h
      simp [aset, hp, ih h']

theorem handle_chat_plans_of_no_steps (s : UState) (m t : String) (sc : Bool)
    (c : Option String) (o : ChatOracle) (now : Int) (h : o.plan_steps = []) :
    (handle_chat s m t sc c o now).1.plans = s.plans := by
  unfold handle_chat
  simp [h]

theorem handle_plan_refine_plans_keys (s : UState) (m t : String)
    (dro : DraftOracle) (ro : RefineOracle) (now : Int)
    (hA : truthyOptStr s.plan_build.active_plan_id = true)
    (hN : explicit_new_plan_request m = false) :
    ((handle_plan_refine s m t dro ro now).1.plans).map Prod.fst =
      s.plans.map Prod.fst := by
  unfold handle_plan_refine
  dsimp only
  rcases hid : s.plan_build.active_plan_id with _ | pid
  · rw [hid] at hA
    simp [truthyOptStr] at hA
  · rw [hid] at hA
    have hpe : ¬ pid = "" := by simpa [truthyOptStr] using hA
    dsimp only
    simp only [hpe, if_false]
    rcases hg : aget s.plans pid with _ | plan
    · -- active id missing from plans: fall back to the draft handler,
      -- which is blocked (truthy active id, no new-plan phrase)
      rw [(handle_plan_draft_blocked _ m t dro now (by simpa [truthyOptStr] using hpe) hN).1]
    · simp only [hN, Bool.false_eq_true, if_false]
      by_cases hrr : refine_requested m
      · simp only [hrr, Bool.not_true, Bool.false_eq_true, if_false]
        exact aset_map_fst_of_isSome _ _ _ (by simp [hg])
      · simp [hrr]

theorem inject_preserves_plans_pb_mode (s : UState) (c : Option String)
    (tk : String) (now : Int) :
    (inject_due_followup_if_needed s c tk now).2.plans = s.plans ∧
    (inject_due_followup_if_needed s c tk now).2.plan_build = s.plan_build ∧
    (inject_due_followup_if_needed s c tk now).2.mode = s.mode := by
  unfold inject_due_followup_if_needed
  dsimp only
  rcases s.followup.pending_at with _ | p
  · exact ⟨rfl, rfl, rfl⟩
  · rcases s.followup.pending_for_ts with _ | t0
    · exact ⟨rfl, rfl, rfl⟩
    · by_cases hlt : now < p
      · simp [hlt]
      · simp only [hlt, if_false]
        rcases lastUserMsg s.history with _ | u
        · exact ⟨rfl, rfl, rfl⟩
        · by_cases hts : (u.ts == t0) <;> simp [hts]

theorem chatPreState_plans (s : UState) (msg : String) (reqT coach : Option String)
    (now : Int) :
    (chatPreState s msg reqT coach now).1.plans = s.plans ∧
    (chatPreState s msg reqT coach now).1.plan_build = s.plan_build ∧
    (chatPreState s msg reqT coach now).1.mode = s.mode := by
  unfold chatPreState
  dsimp only
  exact inject_preserves_plans_pb_mode _ coach (chatTopicKey s reqT) now

theorem decide_with_active_plan (s : UState) (msg tk : String)
    (hP : plan_requested msg = true)
    (hN : explicit_new_plan_request msg = false)
    (hA : truthyOptStr s.plan_build.active_plan_id = true)
    (hT : s.plan_build.topic = some tk) :
    decide_mode_and_step s msg tk = ("CHAT", none) ∨
    (decide_mode_and_step s msg tk = ("PLAN_BUILD", some "REFINE") ∧
     refine_requested msg = true) := by
  unfold decide_mode_and_step
  dsimp only
  by_cases hskip : skip_requested msg
  · left
    simp [hskip]
  · have hact : (truthyOptStr s.plan_build.active_plan_id &&
        (s.plan_build.topic == some tk)) = true := by
      rw [hA, hT]
      simp
    by_cases hrr : refine_requested msg
    · right
      exact ⟨by simp [hskip, hN, hrr, hact], hrr⟩
    · left
      simp [hskip, hN, hrr, hact, hP]

theorem decide_mode_and_step_congr (s s' : UState) (msg tk : String)
    (h1 : s'.mode = s.mode) (h2 : s'.plan_build = s.plan_build) :
    decide_mode_and_step s' msg tk = decide_mode_and_step s msg tk := by
  unfold decide_mode_and_step
  rw [h1, h2]

theorem chatDispatch_plans_preserved (s : UState) (msg tk : String) (sc : Bool)
    (c : Option String) (co : ChatOracle) (dro : DraftOracle) (ro : RefineOracle)
    (now : Int)
    (hP : plan_requested msg = true)
    (hN : explicit_new_plan_request msg = false)
    (hA : truthyOptStr s.plan_build.active_plan_id = true)
    (hT : s.plan_build.topic = some tk)
    (h0 : co.plan_steps = []) :
    ((chatDispatch s msg tk sc c co dro ro now).1.plans).map Prod.fst =
      s.plans.map Prod.fst := by
  rcases decide_with_active_plan s msg tk hP hN hA hT with hdec | ⟨hdec, _⟩
  · unfold chatDispatch
    dsimp only
    rw [hdec]
    have h1 : ¬ ("CHAT" = "PLAN_BUILD") := by decide
    simp only [h1, if_false]
    rw [handle_chat_plans_of_no_steps _ _ _ _ _ _ _ h0]
  · unfold chatDispatch
    dsimp only
    rw [hdec]
    have h2 : ¬ ((some "REFINE" : Option String) = some "DISCOVERY") := by decide
    have h3 : ¬ ((some "REFINE" : Option String) = some "DRAFT") := by decide
    simp only [h2, h3, if_false, if_true]
    exact handle_plan_refine_plans_keys _ msg tk dro ro now hA hN

-- ===========================
-- C1
-- ===========================

/-- C1 (amended): with an active plan for the current topic, a message
that matches a plan-request phrase but no new-plan phrase routes to
`CHAT` or `REFINE` — never `DRAFT` — and, whenever the parsed LLM chat
reply carries no plan array, the set of plan ids after the turn equals
the set before.  (The unconditional claim fails: on the `CHAT` path
`handle_chat` silently inserts a model-proposed plan when the reply's
plan array is non-empty — see the counterexample.) -/
theorem C1_plan_request_never_drafts (s : UState) (msg : String)
    (reqT coach : Option String) (co : ChatOracle) (dro : DraftOracle)
    (ro : RefineOracle) (now : Int)
    (hP : plan_requested msg = true)
    (hN : explicit_new_plan_request msg = false)
    (hA : truthyOptStr s.plan_build.active_plan_id = true)
    (hT : s.plan_build.topic = some (chatTopicKey s reqT)) :
    (decide_mode_and_step s msg (chatTopicKey s reqT)).2 ≠ some "DRAFT" ∧
    ((decide_mode_and_step s msg (chatTopicKey s reqT)).1 = "CHAT" ∨
     (decide_mode_and_step s msg (chatTopicKey s reqT)).2 = some "REFINE") ∧
    (co.plan_steps = [] →
      ((chatTurn s msg reqT coach co dro ro now).1.plans).map Prod.fst =
        s.plans.map Prod.fst) := by
  have hdec := decide_with_active_plan s msg (chatTopicKey s reqT) hP hN hA hT
  refine ⟨?_, ?_, ?_⟩
  · rcases hdec with h | ⟨h, _⟩ <;> simp [h]
  · rcases hdec with h | ⟨h, _⟩ <;> simp [h]
  · intro h0
    have hpre := chatPreState_plans s msg reqT coach now
    have hplans : (chatTurn s msg reqT coach co dro ro now).1.plans =
        (chatDispatch (chatPreState s msg reqT coach now).1 msg
          (chatPreState s msg reqT coach now).2.2
          (chatPreState s msg reqT coach now).2.1 coach co dro ro now).1.plans := rfl
    rw [hplans]
    have htk : (chatPreState s msg reqT coach now).2.2 = chatTopicKey s reqT := rfl
    rw [htk]
    rw [chatDispatch_plans_preserved _ msg (chatTopicKey s reqT) _ coach co dro ro now
      hP hN (by rw [hpre.2.1]; exact hA) (by rw [hpre.2.1]; exact hT) h0]
    rw [hpre.1]

/-- Witness for C1: the amended theorem at a concrete state with an
active `general` plan and the message `"whats the plan"`. -/
theorem C1_witness :
    (decide_mode_and_step sampleActiveState "whats the plan"
        (chatTopicKey sampleActiveState none)).2 ≠ some "DRAFT" ∧
    ((decide_mode_and_step sampleActiveState "whats the plan"
        (chatTopicKey sampleActiveState none)).1 = "CHAT" ∨
     (decide_mode_and_step sampleActiveState "whats the plan"
        (chatTopicKey sampleActiveState none)).2 = some "REFINE") ∧
    ((chatTurn sampleActiveState "whats the plan" none none {} {} {} 200).1.plans).map
        Prod.fst = sampleActiveState.plans.map Prod.fst :=
  ⟨(C1_plan_request_never_drafts sampleActiveState "whats the plan" none none
      {} {} {} 200 (by decide) (by decide) (by decide) (by decide)).1,
   (C1_plan_request_never_drafts sampleActiveState "whats the plan" none none
      {} {} {} 200 (by decide) (by decide) (by decide) (by decide)).2.1,
   (C1_plan_request_never_drafts sampleActiveState "whats the plan" none none
      {} {} {} 200 (by decide) (by decide) (by decide) (by decide)).2.2 rfl⟩

/-- C1 counterexample: same state and message (plan-request wording, no
new-plan wording, active plan for the current topic), but the LLM chat
reply carries a plan array: `handle_chat` inserts `plan_new1`, so the
set of plan ids after the turn differs from the set before, refuting
the unconditional claim. -/
theorem C1_counterexample :
    plan_requested "whats the plan" = true ∧
    explicit_new_plan_request "whats the plan" = false ∧
    truthyOptStr sampleActiveState.plan_build.active_plan_id = true ∧
    sampleActiveState.plan_build.topic =
      some (chatTopicKey sampleActiveState none) ∧
    ((chatTurn sampleActiveState "whats the plan" none none
        { plan_steps := ["Day 1: breathe"], plan_id := "plan_new1" }
        {} {} 200).1.plans).map Prod.fst = ["plan_old", "plan_new1"] ∧
    sampleActiveState.plans.map Prod.fst = ["plan_old"] := by
  refine ⟨by decide, by decide, by decide, by decide, by decide, by decide⟩

-- ===========================
-- C3 helper lemmas: nothing in routing or drafting reads confidence
-- ===========================

theorem decide_mode_and_step_conf_invariant (s : UState)
    (c : List (String × ConfRec)) (msg tk : String) :
    decide_mode_and_step { s with confidence := c } msg tk =
      decide_mode_and_step s msg tk := by
  unfold decide_mode_and_step
  rfl

theorem should_create_new_plan_conf_invariant (s : UState)
    (c : List (String × ConfRec)) (msg tk : String) :
    should_create_new_plan { s with confidence := c } msg tk =
      should_create_new_plan s msg tk := by
  unfold should_create_new_plan
  rfl

theorem handle_plan_draft_conf_invariant (s : UState)
    (c : List (String × ConfRec)) (msg tk : String) (o : DraftOracle) (now : Int) :
    handle_plan_draft { s with confidence := c } msg tk o now =
      ({ (handle_plan_draft s msg tk o now).1 with confidence := c },
       (handle_plan_draft s msg tk o now).2) := by
  unfold handle_plan_draft
  dsimp only
  by_cases h : should_create_new_plan
      { s with plan_build :=
        { s.plan_build with topic := some tk, step := "DRAFT" } } msg tk = true
  · have h' : should_create_new_plan
        { s with confidence := c, plan_build :=
          { s.plan_build with topic := some tk, step := "DRAFT" } } msg tk = true := h
    simp only [h, h', Bool.not_true, Bool.false_eq_true, if_false]
  · simp only [Bool.not_eq_true] at h
    have h' : should_create_new_plan
        { s with confidence := c, plan_build :=
          { s.plan_build with topic := some tk, step := "DRAFT" } } msg tk = false := h
    simp only [h, h', Bool.not_false, if_true]

-- ===========================
-- C3
-- ===========================

/-- C3 (corrected): this revision has no baseline-confidence gate.  The
mode/step router and the plan-stability check are invariant under
arbitrary replacement of the stored confidence map (they read no
confidence data), and the draft handler's result differs only in the
confidence field it carries along — plan generation is never blocked on
a missing baseline and no baseline prompt exists in the plan-build
path. -/
theorem C3_no_baseline_gate :
    (∀ (s : UState) (c : List (String × ConfRec)) (msg tk : String),
      decide_mode_and_step { s with confidence := c } msg tk =
        decide_mode_and_step s msg tk) ∧
    (∀ (s : UState) (c : List (String × ConfRec)) (msg tk : String),
      should_create_new_plan { s with confidence := c } msg tk =
        should_create_new_plan s msg tk) ∧
    (∀ (s : UState) (c : List (String × ConfRec)) (msg tk : String)
       (o : DraftOracle) (now : Int),
      handle_plan_draft { s with confidence := c } msg tk o now =
        ({ (handle_plan_draft s msg tk o now).1 with confidence := c },
         (handle_plan_draft s msg tk o now).2)) :=
  ⟨fun s c msg tk => decide_mode_and_step_conf_invariant s c msg tk,
   fun s c msg tk => should_create_new_plan_conf_invariant s c msg tk,
   fun s c msg tk o now => handle_plan_draft_conf_invariant s c msg tk o now⟩

/-- C3 counterexample: starting from the default state — no stored
confidence baseline for any topic — a plan-requesting message enters
`DISCOVERY` immediately; the question emitted is the fixed deadline
discovery question, not a baseline-confidence prompt; and after three
turns with no numeric reply anywhere a plan has been created while the
confidence store is still empty.  Plan generation was never blocked and
no baseline question was ever asked (no `gates.awaiting_baseline_for`
flag exists in the state schema at all). -/
theorem C3_counterexample :
    ({} : UState).confidence = [] ∧
    decide_mode_and_step ({} : UState) "help me prepare" "general" =
      ("PLAN_BUILD", some "DISCOVERY") ∧
    (chatTurn ({} : UState) "help me prepare" none none {} {} {} 10).2.messages =
      [DISCOVERY_QUESTIONS.headD ""] ∧
    ((chatTurn (chatTurn (chatTurn ({} : UState) "help me prepare" none none
        {} {} {} 10).1 "soon" none none {} {} {} 20).1
        "help me organize" none none {} {} {} 30).1.plans.map Prod.fst) =
      ["plan_00000000"] ∧
    (chatTurn (chatTurn (chatTurn ({} : UState) "help me prepare" none none
        {} {} {} 10).1 "soon" none none {} {} {} 20).1
        "help me organize" none none {} {} {} 30).1.confidence = [] ∧
    (chatTurn (chatTurn (chatTurn ({} : UState) "help me prepare" none none
        {} {} {} 10).1 "soon" none none {} {} {} 20).1
        "help me organize" none none {} {} {} 30).2.created_plan_id =
      some "plan_00000000" := by
  refine ⟨rfl, by decide, by decide, by decide, by decide, by decide⟩

-- ===========================
-- C10: a JSON-level model of `_ensure_state_shape`
-- ===========================

/-- JSON values, for the raw (pre-shaping) user buckets. -/
inductive JVal where
  | null
  | bool (b : Bool)
  | num (n : Int)
  | str (s : String)
  | arr (xs : List JVal)
  | obj (kvs : List (String × JVal))

/-- A JSON object as an association list (python dict, insertion
ordered). -/
abbrev Jobj := List (String × JVal)

/-- Python `dict.setdefault(k, v)`: no-op when the key is present, else
append. -/
def jsetd (m : Jobj) (k : String) (v : JVal) : Jobj :=
  if (aget m k).isSome then m else m ++ [(k, v)]

def DEFAULT_PLAN_BUILD_J : Jobj :=
  [("step", .str "DISCOVERY"), ("topic", .null),
   ("discovery_questions_asked", .num 0), ("discovery_answers", .obj []),
   ("active_plan_id", .null), ("locked", .bool false)]

def DEFAULT_FOLLOWUP_J : Jobj :=
  [("pending_at", .null), ("pending_for_ts", .null), ("last_sent_at", .null)]

def DEFAULT_STATE_J : Jobj :=
  [("mode", .str "CHAT"), ("history", .arr []),
   ("metrics", .obj [("confidence", .obj [])]),
   ("plan_build", .obj DEFAULT_PLAN_BUILD_J),
   ("plans", .obj []),
   ("followup", .obj DEFAULT_FOLLOWUP_J)]

/-- `merged = json.loads(json.dumps(DEFAULT_STATE))` (a deep copy)
followed by `for k, v in state.items(): merged[k] = v`. -/
def mergeOverDefault (state : Jobj) : Jobj :=
  state.foldl (fun m kv => aset m kv.1 kv.2) DEFAULT_STATE_J

/-- The history-row normalisation `m.setdefault("kind", None)` applied
to dict rows; non-dict rows are left alone (`isinstance(m, dict)` is
false). -/
def kindDefault : JVal → JVal
  | .obj o => .obj (jsetd o "kind" .null)
  | v => v

/-- `merged.setdefault(key, outerDefault)` followed by
`merged[key].setdefault(k, v)` for every default subkey.  `none` models
the `AttributeError` python raises when the present value is not a
dict. -/
def repairObj (m : Jobj) (key : String) (outerDefault : JVal)
    (subDefaults : Jobj) : Option Jobj :=
  let m := jsetd m key outerDefault
  match aget m key with
  | some (.obj o) =>
    some (aset m key (.obj (subDefaults.foldl (fun a kv => jsetd a kv.1 kv.2) o)))
  | _ => none

/-- `_ensure_state_shape(state)`, with `none` for the exception paths
(a non-dict `metrics`/`plan_build`/`followup` value, or a non-iterable
`history` value; iterating a string yields characters and a dict yields
keys, neither of which is a dict row, so those pass through
unchanged). -/
def ensure_state_shape (state : Jobj) : Option Jobj :=
  let merged := mergeOverDefault state
  let merged := jsetd merged "history" (.arr [])
  match repairObj merged "metrics" (.obj [("confidence", .obj [])])
      [("confidence", .obj [])] with
  | none => none
  | some merged =>
    match repairObj merged "plan_build" (.obj []) DEFAULT_PLAN_BUILD_J with
    | none => none
    | some merged =>
      let merged := jsetd merged "plans" (.obj [])
      match repairObj merged "followup" (.obj []) DEFAULT_FOLLOWUP_J with
      | none => none
      | some merged =>
        match aget merged "history" with
        | some (.arr rows) =>
          some (aset merged "history" (.arr (rows.map kindDefault)))
        | some (.str _) => some merged
        | some (.obj _) => some merged
        | some _ => none
        | none => some merged

/-- `_get_user_bucket` + `_ensure_state_shape`, exactly as `POST /chat`
performs them before any other access to the bucket (a missing bucket
becomes `{}`; a non-dict bucket raises in `state.items()`). -/
def chat_load_state (all_state : Jobj) (uid : String) : Option Jobj :=
  match aget all_state uid with
  | none => ensure_state_shape []
  | some (.obj b) => ensure_state_shape b
  | some _ => none

/-- The identical load sequence performed by `GET /chat/history`. -/
def history_load_state (all_state : Jobj) (uid : String) : Option Jobj :=
  match aget all_state uid with
  | none => ensure_state_shape []
  | some (.obj b) => ensure_state_shape b
  | some _ => none

/-- The full key skeleton of `DEFAULT_STATE`: every top-level key, with
`metrics.confidence`, the six `plan_build` subkeys and the three
`followup` subkeys. -/
def shapedOK (o : Jobj) : Bool :=
  (aget o "mode").isSome &&
  (aget o "history").isSome &&
  (match aget o "metrics" with
   | some (.obj mo) => (aget mo "confidence").isSome
   | _ => false) &&
  (match aget o "plan_build" with
   | some (.obj po) =>
     ["step", "topic", "discovery_questions_asked", "discovery_answers",
      "active_plan_id", "locked"].all (fun k => (aget po k).isSome)
   | _ => false) &&
  (aget o "plans").isSome &&
  (match aget o "followup" with
   | some (.obj fo) =>
     ["pending_at", "pending_for_ts", "last_sent_at"].all
       (fun k => (aget fo k).isSome)
   | _ => false)

-- ===========================
-- Association-list lemmas for the JSON model
-- ===========================

theorem aget_append {α : Type} (m l : List (String × α)) (k : String) :
    aget (m ++ l) k = ((aget m k).elim (aget l k) some) := by
  induction m with
  | nil => simp [aget, List.find?]
  | cons p ps ih =>
    by_cases hp : p.1 == k
    · simp [aget, List.find?, hp]
    · simpa [aget, List.find?, hp] using ih

theorem aget_nil {α : Type} (k : String) : aget ([] : List (String × α)) k = none :=
  rfl

theorem aget_eq_none_of_not_mem_keys {α : Type} (m : List (String × α))
    (k : String) (h : k ∉ m.map Prod.fst) : aget m k = none := by
  induction m with
  | nil => rfl
  | cons p ps ih =>
    simp only [List.map_cons, List.mem_cons, not_or] at h
    have hp : (p.1 == k) = false := by
      simpa [beq_iff_eq] using fun e => h.1 e.symm
    simpa [aget, List.find?, hp] using ih h.2

theorem jsetd_of_present (m : Jobj) (k : String) (v : JVal)
    (h : (aget m k).isSome) : jsetd m k v = m := by
  unfold jsetd
  simp [h]

theorem aget_jsetd_preserve (m : Jobj) (k kk : String) (v w : JVal)
    (h : aget m k = some v) : aget (jsetd m kk w) k = some v := by
  unfold jsetd
  by_cases hs : (aget m kk).isSome
  · simp [hs, h]
  · simp only [hs, if_false, Bool.false_eq_true]
    rw [aget_append, h]
    rfl

theorem aget_jsetd_isSome (m : Jobj) (k : String) (v : JVal) :
    (aget (jsetd m k v) k).isSome := by
  unfold jsetd
  by_cases hs : (aget m k).isSome
  · simp [hs]
  · simp only [hs, if_false, Bool.false_eq_true]
    rw [aget_append]
    rcases hk : aget m k with _ | u
    · simp [aget, List.find?]
    · simp [hk] at hs

theorem aget_jsetd_isSome_mono (m : Jobj) (k kk : String) (w : JVal)
    (h : (aget m k).isSome) : (aget (jsetd m kk w) k).isSome := by
  rcases ho : aget m k with _ | v
  · simp [ho] at h
  · rw [aget_jsetd_preserve m k kk v w ho]
    rfl

theorem foldl_jsetd_preserve (sd : Jobj) (o : Jobj) (k : String) (v : JVal)
    (h : aget o k = some v) :
    aget (sd.foldl (fun a kv => jsetd a kv.1 kv.2) o) k = some v := by
  induction sd generalizing o with
  | nil => exact h
  | cons p ps ih =>
    exact ih _ (aget_jsetd_preserve o k p.1 v p.2 h)

theorem foldl_jsetd_isSome_mono (sd : Jobj) (o : Jobj) (k : String)
    (h : (aget o k).isSome) :
    (aget (sd.foldl (fun a kv => jsetd a kv.1 kv.2) o) k).isSome := by
  induction sd generalizing o with
  | nil => exact h
  | cons p ps ih =>
    exact ih _ (aget_jsetd_isSome_mono o k p.1 p.2 h)

theorem foldl_jsetd_covers (sd : Jobj) (o : Jobj) (k : String)
    (h : k ∈ sd.map Prod.fst) :
    (aget (sd.foldl (fun a kv => jsetd a kv.1 kv.2) o) k).isSome := by
  induction sd generalizing o with
  | nil => simp at h
  | cons p ps ih =>
    simp only [List.map_cons] at h
    rcases List.mem_cons.mp h with he | hm
    · subst he
      exact foldl_jsetd_isSome_mono ps _ _ (aget_jsetd_isSome o p.1 p.2)
    · exact ih _ hm

theorem foldl_aset_aget (st : Jobj) (m : Jobj) (k : String)
    (hnd : (st.map Prod.fst).Nodup) :
    aget (st.foldl (fun a kv => aset a kv.1 kv.2) m) k =
      ((aget st k).elim (aget m k) some) := by
  induction st generalizing m with
  | nil => simp [aget, List.find?]
  | cons p ps ih =>
    simp only [List.map_cons, List.nodup_cons] at hnd
    rw [List.foldl_cons, ih _ hnd.2]
    by_cases hk : p.1 == k
    · have hpk : p.1 = k := by simpa [beq_iff_eq] using hk
      have hps : aget ps k = none :=
        aget_eq_none_of_not_mem_keys ps k (hpk ▸ hnd.1)
      rw [hps]
      simp only [Option.elim]
      rw [hpk, aget_aset_self]
      simp [aget, List.find?, hk]
    · rw [aget_aset_ne _ _ _ _ (by simpa [beq_iff_eq] using fun e => hk (by simp [e]))]
      simp [aget, List.find?, hk]

theorem repairObj_spec (m : Jobj) (key : String) (d : JVal) (sd : Jobj)
    (oo : Jobj) (h : aget m key = some (JVal.obj oo)) :
    ∃ m', repairObj m key d sd = some m' ∧
      (∀ k', k' ≠ key → aget m' k' = aget m k') ∧
      ∃ o', aget m' key = some (JVal.obj o') ∧
        (∀ kk vv, aget oo kk = some vv → aget o' kk = some vv) ∧
        (∀ k ∈ sd.map Prod.fst, (aget o' k).isSome) := by
  have hset : jsetd m key d = m := jsetd_of_present m key d (by simp [h])
  refine ⟨aset m key (JVal.obj (sd.foldl (fun a kv => jsetd a kv.1 kv.2) oo)),
    ?_, ?_, ?_⟩
  · unfold repairObj
    dsimp only
    rw [hset, h]
  · intro k' hk'
    exact aget_aset_ne m key k' _ hk'
  · exact ⟨_, aget_aset_self .., fun kk vv hv => foldl_jsetd_preserve sd oo kk vv hv,
      fun k hk => foldl_jsetd_covers sd oo k hk⟩

-- ===========================
-- C10
-- ===========================

/-- C10: for every stored user bucket whose `metrics`, `plan_build` and
`followup` entries (when present) are dicts and whose `history` entry
(when present) is a list, `_ensure_state_shape` succeeds and returns a
state containing every key of `DEFAULT_STATE` — `mode`, `history`,
`metrics.confidence`, `plan_build` with its six subkeys, `plans`, and
`followup` with its three subkeys — while preserving every value already
present: non-container top-level values verbatim, the subkey values of
the three container keys, and the history rows up to the row-level
`kind` defaulting the code itself performs.  `POST /chat` and
`GET /chat/history` perform the identical bucket-load-and-shape sequence
before any other state access. -/
theorem C10_ensure_state_shape (state : Jobj)
    (hnd : (state.map Prod.fst).Nodup)
    (hm : ∀ v, aget state "metrics" = some v → ∃ o, v = JVal.obj o)
    (hpb : ∀ v, aget state "plan_build" = some v → ∃ o, v = JVal.obj o)
    (hfu : ∀ v, aget state "followup" = some v → ∃ o, v = JVal.obj o)
    (hh : ∀ v, aget state "history" = some v → ∃ xs, v = JVal.arr xs) :
    ∃ out, ensure_state_shape state = some out ∧ shapedOK out = true ∧
      (∀ k v, aget state k = some v →
        k ≠ "metrics" → k ≠ "plan_build" → k ≠ "followup" → k ≠ "history" →
        aget out k = some v) ∧
      (∀ mo' cv, aget state "metrics" = some (JVal.obj mo') →
        aget mo' "confidence" = some cv →
        ∃ mo2, aget out "metrics" = some (JVal.obj mo2) ∧
          aget mo2 "confidence" = some cv) ∧
      (∀ po' kk vv, aget state "plan_build" = some (JVal.obj po') →
        aget po' kk = some vv →
        ∃ po2, aget out "plan_build" = some (JVal.obj po2) ∧
          aget po2 kk = some vv) ∧
      (∀ fo' kk vv, aget state "followup" = some (JVal.obj fo') →
        aget fo' kk = some vv →
        ∃ fo2, aget out "followup" = some (JVal.obj fo2) ∧
          aget fo2 kk = some vv) ∧
      (∀ xs, aget state "history" = some (JVal.arr xs) →
        aget out "history" = some (JVal.arr (xs.map kindDefault))) ∧
      (∀ all_state uid, chat_load_state all_state uid =
        history_load_state all_state uid) := by
  have hg : ∀ k, aget (mergeOverDefault state) k =
      ((aget state k).elim (aget DEFAULT_STATE_J k) some) :=
    fun k => foldl_aset_aget state DEFAULT_STATE_J k hnd
  have hm1 : jsetd (mergeOverDefault state) "history" (JVal.arr []) =
      mergeOverDefault state := by
    apply jsetd_of_present
    rw [hg]
    rcases hh0 : aget state "history" with _ | v <;> rfl
  -- metrics object at the merged stage
  obtain ⟨mo, hmo, hmoRel⟩ :
      ∃ mo, aget (mergeOverDefault state) "metrics" = some (JVal.obj mo) ∧
        (∀ o, aget state "metrics" = some (JVal.obj o) → mo = o) := by
    rcases hmet : aget state "metrics" with _ | v
    · exact ⟨[("confidence", JVal.obj [])], by rw [hg, hmet]; rfl,
        fun o ho => by cases ho⟩
    · obtain ⟨o, rfl⟩ := hm v hmet
      refine ⟨o, by rw [hg, hmet]; rfl, fun o' ho => ?_⟩
      injection ho with h1
      injection h1 with h2
  obtain ⟨m2, hrep2, hm2ne, mo2, hmo2get, hmo2pres, hmo2cov⟩ :=
    repairObj_spec (mergeOverDefault state) "metrics"
      (JVal.obj [("confidence", JVal.obj [])]) [("confidence", JVal.obj [])] mo hmo
  -- plan_build object at m2
  obtain ⟨po, hpo, hpoRel⟩ :
      ∃ po, aget m2 "plan_build" = some (JVal.obj po) ∧
        (∀ o, aget state "plan_build" = some (JVal.obj o) → po = o) := by
    have hne := hm2ne "plan_build" (by decide)
    rcases hpbv : aget state "plan_build" with _ | v
    · exact ⟨DEFAULT_PLAN_BUILD_J, by rw [hne, hg, hpbv]; rfl,
        fun o ho => by cases ho⟩
    · obtain ⟨o, rfl⟩ := hpb v hpbv
      refine ⟨o, by rw [hne, hg, hpbv]; rfl, fun o' ho => ?_⟩
      injection ho with h1
      injection h1 with h2
  obtain ⟨m3, hrep3, hm3ne, po2, hpo2get, hpo2pres, hpo2cov⟩ :=
    repairObj_spec m2 "plan_build" (JVal.obj []) DEFAULT_PLAN_BUILD_J po hpo
  -- the plans setdefault is a no-op
  have hplans3 : (aget m3 "plans").isSome = true := by
    rw [hm3ne "plans" (by decide), hm2ne "plans" (by decide), hg]
    rcases hpl : aget state "plans" with _ | v <;> rfl
  have hm3p : jsetd m3 "plans" (JVal.obj []) = m3 :=
    jsetd_of_present m3 "plans" _ hplans3
  -- followup object at m3
  obtain ⟨fo, hfoget, hfoRel⟩ :
      ∃ fo, aget m3 "followup" = some (JVal.obj fo) ∧
        (∀ o, aget state "followup" = some (JVal.obj o) → fo = o) := by
    have hne3 := hm3ne "followup" (by decide)
    have hne2 := hm2ne "followup" (by decide)
    rcases hfv : aget state "followup" with _ | v
    · exact ⟨DEFAULT_FOLLOWUP_J, by rw [hne3, hne2, hg, hfv]; rfl,
        fun o ho => by cases ho⟩
    · obtain ⟨o, rfl⟩ := hfu v hfv
      refine ⟨o, by rw [hne3, hne2, hg, hfv]; rfl, fun o' ho => ?_⟩
      injection ho with h1
      injection h1 with h2
  obtain ⟨m4, hrep4, hm4ne, fo2, hfo2get, hfo2pres, hfo2cov⟩ :=
    repairObj_spec m3 "followup" (JVal.obj []) DEFAULT_FOLLOWUP_J fo hfoget
  -- history at m4
  obtain ⟨xs0, hx0, hx0rel⟩ :
      ∃ xs0, aget m4 "history" = some (JVal.arr xs0) ∧
        (∀ ys, aget state "history" = some (JVal.arr ys) → xs0 = ys) := by
    have hne : aget m4 "history" = aget (mergeOverDefault state) "history" := by
      rw [hm4ne "history" (by decide), hm3ne "history" (by decide),
        hm2ne "history" (by decide)]
    rcases hhv : aget state "history" with _ | v
    · exact ⟨[], by rw [hne, hg, hhv]; rfl, fun ys hy => by cases hy⟩
    · obtain ⟨xs, rfl⟩ := hh v hhv
      refine ⟨xs, by rw [hne, hg, hhv]; rfl, fun ys hy => ?_⟩
      injection hy with h1
      injection h1 with h2
  refine ⟨aset m4 "history" (JVal.arr (xs0.map kindDefault)), ?_, ?_, ?_, ?_, ?_, ?_, ?_, ?_⟩
  -- the pipeline succeeds and returns exactly this object
  · unfold ensure_state_shape
    dsimp only
    rw [hm1, hrep2]
    dsimp only
    rw [hrep3]
    dsimp only
    rw [hm3p, hrep4]
    dsimp only
    rw [hx0]
  -- the result carries the full DEFAULT_STATE key skeleton
  · have h_mode : (aget (aset m4 "history" (JVal.arr (xs0.map kindDefault))) "mode").isSome = true := by
      rw [aget_aset_ne _ _ _ _ (by decide), hm4ne "mode" (by decide),
        hm3ne "mode" (by decide), hm2ne "mode" (by decide), hg]
      rcases hmv : aget state "mode" with _ | v <;> rfl
    have h_hist : aget (aset m4 "history" (JVal.arr (xs0.map kindDefault))) "history" =
        some (JVal.arr (xs0.map kindDefault)) := aget_aset_self ..
    have h_met : aget (aset m4 "history" (JVal.arr (xs0.map kindDefault))) "metrics" =
        some (JVal.obj mo2) := by
      rw [aget_aset_ne _ _ _ _ (by decide), hm4ne "metrics" (by decide),
        hm3ne "metrics" (by decide)]
      exact hmo2get
    have h_pb : aget (aset m4 "history" (JVal.arr (xs0.map kindDefault))) "plan_build" =
        some (JVal.obj po2) := by
      rw [aget_aset_ne _ _ _ _ (by decide), hm4ne "plan_build" (by decide)]
      exact hpo2get
    have h_plans : (aget (aset m4 "history" (JVal.arr (xs0.map kindDefault))) "plans").isSome = true := by
      rw [aget_aset_ne _ _ _ _ (by decide), hm4ne "plans" (by decide)]
      exact hplans3
    have h_fu : aget (aset m4 "history" (JVal.arr (xs0.map kindDefault))) "followup" =
        some (JVal.obj fo2) := by
      rw [aget_aset_ne _ _ _ _ (by decide)]
      exact hfo2get
    unfold shapedOK
    rw [h_mode, h_hist, h_met, h_pb, h_plans, h_fu]
    simp only [Option.isSome_some, Bool.true_and, Bool.and_true, Bool.and_eq_true,
      List.all_eq_true]
    exact ⟨⟨hmo2cov "confidence" (by decide), fun x hx => hpo2cov x hx⟩,
      fun x hx => hfo2cov x hx⟩
  -- non-container top-level values are preserved verbatim
  · intro k v hv h1 h2 h3 h4
    rw [aget_aset_ne _ _ _ _ h4, hm4ne k h3, hm3ne k h2, hm2ne k h1, hg, hv]
    rfl
  -- metrics.confidence (and every other present metrics subkey) preserved
  · intro mo' cv hmet hcv
    refine ⟨mo2, ?_, ?_⟩
    · rw [aget_aset_ne _ _ _ _ (by decide), hm4ne "metrics" (by decide),
        hm3ne "metrics" (by decide)]
      exact hmo2get
    · have h5 : aget mo "confidence" = some cv := by
        rw [hmoRel mo' hmet]
        exact hcv
      exact hmo2pres "confidence" cv h5
  -- plan_build subkeys preserved
  · intro po' kk vv hpbv hkk
    refine ⟨po2, ?_, ?_⟩
    · rw [aget_aset_ne _ _ _ _ (by decide), hm4ne "plan_build" (by decide)]
      exact hpo2get
    · have h5 : aget po kk = some vv := by
        rw [hpoRel po' hpbv]
        exact hkk
      exact hpo2pres kk vv h5
  -- followup subkeys preserved
  · intro fo' kk vv hfv hkk
    refine ⟨fo2, ?_, ?_⟩
    · rw [aget_aset_ne _ _ _ _ (by decide)]
      exact hfo2get
    · have h5 : aget fo kk = some vv := by
        rw [hfoRel fo' hfv]
        exact hkk
      exact hfo2pres kk vv h5
  -- history rows preserved up to the kind defaulting
  · intro xs hx
    rw [← hx0rel xs hx]
    exact aget_aset_self ..
  -- both endpoints perform the identical load-and-shape sequence
  · intro all_state uid
    rfl

/-- A concrete stored bucket: partial `plan_build`, nested metrics, one
dict history row missing `kind`, and an unknown extra key. -/
def sampleBucketMetrics : Jobj :=
  [("confidence", JVal.obj [("general", JVal.obj [("baseline", JVal.num 6)])])]

def sampleBucketPB : Jobj := [("step", JVal.str "REFINE")]

def sampleBucketHist : List JVal :=
  [JVal.obj [("role", JVal.str "user"), ("text", JVal.str "hi")]]

def sampleBucket : Jobj :=
  [("mode", JVal.str "PLAN_BUILD"),
   ("metrics", JVal.obj sampleBucketMetrics),
   ("plan_build", JVal.obj sampleBucketPB),
   ("history", JVal.arr sampleBucketHist),
   ("extra", JVal.num 5)]

/-- Witness for C10: the shaping succeeds on the concrete bucket and the
result passes the full key-skeleton check. -/
theorem C10_witness :
    (ensure_state_shape sampleBucket).isSome = true ∧
    shapedOK ((ensure_state_shape sampleBucket).getD []) = true := by
  obtain ⟨out, h1, h2, -, -, -, -, -, -⟩ :=
    C10_ensure_state_shape sampleBucket (by decide)
      (fun v hv => ⟨sampleBucketMetrics, by
        have h2 : some (JVal.obj sampleBucketMetrics) = some v := hv
        exact (Option.some.inj h2).symm⟩)
      (fun v hv => ⟨sampleBucketPB, by
        have h2 : some (JVal.obj sampleBucketPB) = some v := hv
        exact (Option.some.inj h2).symm⟩)
      (fun v hv => by
        have h2 : (none : Option JVal) = some v := hv
        exact Option.noConfusion h2)
      (fun v hv => ⟨sampleBucketHist, by
        have h2 : some (JVal.arr sampleBucketHist) = some v := hv
        exact (Option.some.inj h2).symm⟩)
  constructor
  · rw [h1]
    rfl
  · rw [h1]
    simpa using h2

end BuildConfidence
